import Mathlib

/-!
Verification of the `aws_lambda_layer` Ansible module
(`library/aws_lambda_layer.py`): a shallow embedding of the reconciler
`manage_lambda_layer`, the version enumerator `get_layer_version_info`,
the remote checksum resolver `fetch_s3_checksum`, the uploader
`upload_file` and the destroyer `destroy_layer`, together with proofs of
the spec's testable properties.

Modelling decisions:
* File contents are abstract byte blobs (`Bytes := List Nat`); the SHA-256
  plus base64 pipeline of `get_file_checksum` is abstracted as a parameter
  `H : Bytes → String` threaded through every definition (the code only
  ever compares digests for equality).
* The S3 bucket hosting the single configured `(bucket, object_key)`
  location is a small state machine `ObjectStore` (current object,
  versioned history, token counter); `put_object` on a versioned bucket
  returns a fresh token, on an unversioned bucket none, mirroring
  `obj.get('VersionId', '') or None`.
* The Lambda service state for the single configured layer name is
  `LayerState` (published versions plus the plane's monotonic next
  version number).  `list_layer_versions` pagination is modelled by an
  explicit page decomposition `pages : List (List LayerVersion)`; pages
  may repeat entries, and `PagesValid` says the pages enumerate exactly
  the published versions.
* Python truthiness of the `local_checksum` variable (which holds `None`,
  `True` or a `str`) is modelled by `PyChecksum` with `truthy` and the
  Python `==` comparison `eqStr` (under which `True == "..."` is false).
* Exceptions become `Except Err`; the `assert local_checksum` of line 299
  becomes an `assertionError` branch.
-/

/-- Abstract byte blobs standing for file / object bodies. -/
abbrev Bytes := List Nat

/-- The Python value held by the `local_checksum` variable of
`manage_lambda_layer` (line 278: `state == 'absent' or
get_file_checksum(path)`) and by the `local_checksum` parameter of
`get_layer_version_info`: `None`, the boolean `True`, or a string. -/
inductive PyChecksum where
  | pyNone : PyChecksum
  | pyTrue : PyChecksum
  | pyStr : String → PyChecksum
deriving DecidableEq, Repr

/-- Python truthiness of the `local_checksum` value (`not local_checksum`
in line 220): `None` and `''` are falsy, `True` and nonempty strings are
truthy. -/
def PyChecksum.truthy : PyChecksum → Bool
  | PyChecksum.pyNone => false
  | PyChecksum.pyTrue => true
  | PyChecksum.pyStr s => !(s == "")

/-- Python `==` between the `local_checksum` value and a checksum string
(line 220): `None == s` and `True == s` are both `False` in Python, a
string compares by string equality. -/
def PyChecksum.eqStr : PyChecksum → String → Bool
  | PyChecksum.pyNone, _ => false
  | PyChecksum.pyTrue, _ => false
  | PyChecksum.pyStr t, s => t == s

/-- Python truthiness applied to an optional string (the module writes
`if object_version:` and `... or None`, so `Some ""` behaves like
`None`). -/
def pyTruthyOpt (o : Option String) : Option String :=
  match o with
  | none => none
  | some s => if s = "" then none else some s

/-- `layer.get('CompatibleRuntimes', []) or []` (line 287): an absent
runtime list and an empty one both read back as `[]`. -/
def pyListOrNil (o : Option (List String)) : List String :=
  match o with
  | none => []
  | some l => l

/-- A published Lambda layer version as returned by
`lambda_client.get_layer_version`: version number, layer ARN, version
ARN, the content's digest (`Content.CodeSha256`) and the
`CompatibleRuntimes` entry (`none` when the publish call omitted the
argument). -/
structure LayerVersion where
  version : Nat
  layerArn : String
  layerVersionArn : String
  codeSha256 : String
  compatibleRuntimes : Option (List String)
deriving DecidableEq, Repr

/-- State of the management plane for the configured layer name: its
published versions and the plane's next (monotonic, never reused)
version number. -/
structure LayerState where
  versions : List LayerVersion
  nextVersion : Nat
deriving DecidableEq, Repr

/-- An object stored at the configured `(bucket, object_key)` location:
body plus attached metadata (an association list of metadata keys to
values). -/
structure S3Object where
  body : Bytes
  metadata : List (String × String)
deriving DecidableEq, Repr

/-- The object-store state at the configured `(bucket, object_key)`
location: the current object (if any), the version history of a
versioned bucket, whether the bucket is versioned, and the store's token
counter. -/
structure ObjectStore where
  versioned : Bool
  current : Option S3Object
  history : List (String × S3Object)
  nextTok : Nat
deriving DecidableEq, Repr

/-- `s3_client.get_object` at the configured location, with an optional
`VersionId`: without a version it returns the current object, with one
it looks the version up in the history. -/
def ObjectStore.get (s : ObjectStore) (ov : Option String) : Option S3Object :=
  match ov with
  | none => s.current
  | some v => (s.history.find? (fun p => p.1 == v)).map (fun p => p.2)

/-- `s3_client.put_object` at the configured location: replaces the
current object; on a versioned bucket it also records the new object
under a fresh version token and returns that token, on an unversioned
bucket it returns no token. -/
def ObjectStore.put (s : ObjectStore) (body : Bytes) (md : List (String × String)) :
    ObjectStore × Option String :=
  if s.versioned then
    ({ s with
       current := some { body := body, metadata := md },
       history := ("v" ++ toString s.nextTok,
                   { body := body, metadata := md }) :: s.history,
       nextTok := s.nextTok + 1 },
     some ("v" ++ toString s.nextTok))
  else
    ({ s with current := some { body := body, metadata := md } }, none)

/-- `fetch_s3_checksum` (lines 138-165): resolve the object (honouring a
truthy `object_version`); a missing object gives `(None, None)` (the
`NoSuchKey` branch); a truthy value under the metadata key gives
`(that value, False)`; otherwise the body is downloaded and hashed,
giving `(computed, True)`. -/
def fetch_s3_checksum (H : Bytes → String) (s : ObjectStore)
    (object_version : Option String) (metadata : String) :
    Option String × Option Bool :=
  match s.get (pyTruthyOpt object_version) with
  | none => (none, none)
  | some obj =>
    match List.lookup metadata obj.metadata with
    | none => (some (H obj.body), some true)
    | some v => if v = "" then (some (H obj.body), some true) else (some v, some false)

/-- `upload_file` (lines 168-186): put the bundle with its checksum
(recomputed when the argument is falsy) attached as metadata, and return
the store's version token, with `obj.get('VersionId', '') or None`
collapsing a falsy token to `None`. -/
def upload_file (H : Bytes → String) (s : ObjectStore) (body : Bytes)
    (checksum : Option String) (metadata : String) : ObjectStore × Option String :=
  let ck := match checksum with
    | none => H body
    | some c => if c = "" then H body else c
  let pr := s.put body [(metadata, ck)]
  (pr.1, pyTruthyOpt pr.2)

/-- Python `max(versions)` on a list of naturals, `None` when the list is
empty (the `ValueError` branch of lines 223-226). -/
def pyMax? : List Nat → Option Nat
  | [] => none
  | n :: ns =>
    match pyMax? ns with
    | none => some n
    | some m => some (max n m)

/-- `lambda_client.get_layer_version(name, n)`: the published version
with the given version number. -/
def getLayerVersion (lam : LayerState) (n : Nat) : Option LayerVersion :=
  lam.versions.find? (fun v => v.version == n)

/-- The filter of line 220: `not local_checksum or local_checksum ==
version['Content']['CodeSha256']`. -/
def pyFilterOk (lc : PyChecksum) (v : LayerVersion) : Bool :=
  !lc.truthy || lc.eqStr v.codeSha256

/-- The `versions` list built by lines 202-221: walk every page of
`list_layer_versions` accumulating the set of version numbers (the
Python `set` union is modelled by `dedup` over the concatenated pages),
fetch each number's detail and keep the numbers passing the checksum
filter. -/
def glviCandidates (lam : LayerState) (pages : List (List LayerVersion))
    (local_checksum : PyChecksum) : List Nat :=
  ((pages.flatten.map LayerVersion.version).dedup).filter (fun n =>
    match getLayerVersion lam n with
    | none => false
    | some v => pyFilterOk local_checksum v)

/-- `get_layer_version_info` (lines 189-231): collect the filtered
version numbers and return the detail of the maximum one, or `None` when
none passes (the `ValueError` branch of `max`). -/
def get_layer_version_info (lam : LayerState)
    (pages : List (List LayerVersion)) (local_checksum : PyChecksum) :
    Option LayerVersion :=
  match pyMax? (glviCandidates lam pages local_checksum) with
  | none => none
  | some m => getLayerVersion lam m

/-- `destroy_layer` (lines 234-262): collect every version number from
the pages (deduplicated), delete each collected version, and return
`bool(versions)` — whether any version existed. -/
def destroy_layer (lam : LayerState) (pages : List (List LayerVersion)) :
    LayerState × Bool :=
  let nums := (pages.flatten.map LayerVersion.version).dedup
  ({ versions := lam.versions.filter (fun v => !(nums.contains v.version)),
     nextVersion := lam.nextVersion },
   !nums.isEmpty)

/-- `state` parameter of the module. -/
inductive StateParam where
  | present : StateParam
  | absent : StateParam
deriving DecidableEq, Repr

/-- Exceptions surfaced by `manage_lambda_layer`. -/
inductive Err where
  | localIOError : Err
  | assertionError : Err
  | remoteApiError : Err
deriving DecidableEq, Repr

/-- The `result` dict accreted by `manage_lambda_layer`: `none` in a
field means the corresponding key is absent from the dict. -/
structure ManageResult where
  changed : Bool
  arn : Option String := none
  version : Option Nat := none
  version_arn : Option String := none
  version_checksum : Option String := none
  runtimesR : Option (List String) := none
  bucketR : Option (Option String) := none
  object_versionR : Option (Option String) := none
  downloadedR : Option (Option Bool) := none
  stdoutSet : Bool := false
deriving DecidableEq, Repr

/-- Ghost record of the arguments the code passes to
`lambda_client.publish_layer_version` (lines 311-322): the content
bucket/key, the `S3ObjectVersion` entry (`none` when the falsy check of
line 315 omits it) and the `CompatibleRuntimes` entry (`none` when the
line 319 splat omits it). -/
structure PublishCall where
  contentBucket : Option String
  contentKey : Option String
  contentVersion : Option String
  runtimesArg : Option (List String)
deriving DecidableEq, Repr

/-- Output of one `manage_lambda_layer` call: final Lambda state, final
object-store state, the result dict, and the publish call made (if
any). -/
structure ManageOut where
  lam : LayerState
  store : ObjectStore
  result : ManageResult
  publishCall : Option PublishCall
deriving DecidableEq, Repr

/-- The upload condition of line 305:
`not s3_checksum or local_checksum != s3_checksum`. -/
def needsUpload (localck : String) (s3ck : Option String) : Bool :=
  match s3ck with
  | none => true
  | some s => (s == "") || !(localck == s)

/-- The publish condition of line 310: `not layer or
result['version_checksum'] != local_checksum or result['runtimes'] !=
runtimes`. -/
def needsPublish (layerFound : Bool) (version_checksum : Option String)
    (runtimesR : Option (List String)) (localck : String)
    (runtimes : List String) : Bool :=
  !layerFound || !(version_checksum == some localck) || !(runtimesR == some runtimes)

/-- `LayerArn` the management plane assigns to the configured name. -/
def layerArnOf (name : String) : String :=
  "arn:aws:lambda:layer:" ++ name

/-- `LayerVersionArn` the management plane assigns to a version. -/
def versionArnOf (name : String) (n : Nat) : String :=
  layerArnOf name ++ ":" ++ toString n

/-- `manage_lambda_layer` (lines 265-330), over the embedded states.

* Line 270: `runtimes = runtimes or []`.
* Line 278: `local_checksum = state == 'absent' or
  get_file_checksum(path)` — for `absent` the boolean `True`, for
  `present` the digest of the bundle (raising when the path is unset).
* Line 279: version lookup; the listing the live client performs over
  the state is the single page `[lam.versions]`.
* Lines 282-294: result fields from the found version; the `absent`
  branches destroy the layer and return.
* Lines 296-308: resolve the remote checksum, re-hash the bundle,
  assert it truthy, record `bucket` / `object_version` / `downloaded`,
  and upload on mismatch, replacing the local `object_version` with the
  returned token and marking `changed`.
* Lines 310-328: publish when no matching version was found or its
  checksum or runtime list differs; the plane assigns the next version
  number and digests the object the content options point at. -/
def manage_lambda_layer (H : Bytes → String) (name : String)
    (lam : LayerState) (store : ObjectStore)
    (bucket object_key : Option String) (object_version : Option String)
    (path : Option Bytes) (state : StateParam)
    (runtimes0 : Option (List String)) (metadata : String) :
    Except Err ManageOut :=
  let runtimes := runtimes0.getD []
  match state with
  | StateParam.absent =>
    match get_layer_version_info lam [lam.versions] PyChecksum.pyTrue with
    | some v =>
      Except.ok
        { lam := (destroy_layer lam [lam.versions]).1, store := store,
          result := { changed := true, arn := some v.layerArn,
                      version := some v.version,
                      version_arn := some v.layerVersionArn,
                      version_checksum := some v.codeSha256,
                      runtimesR := some (pyListOrNil v.compatibleRuntimes) },
          publishCall := none }
    | none =>
      Except.ok
        { lam := (destroy_layer lam [lam.versions]).1, store := store,
          result := { changed := (destroy_layer lam [lam.versions]).2 },
          publishCall := none }
  | StateParam.present =>
    match path with
    | none => Except.error Err.localIOError
    | some b =>
      let local_checksum := H b
      let layer := get_layer_version_info lam [lam.versions]
        (PyChecksum.pyStr local_checksum)
      let r0 : ManageResult :=
        match layer with
        | some v =>
          { changed := false, arn := some v.layerArn, version := some v.version,
            version_arn := some v.layerVersionArn,
            version_checksum := some v.codeSha256,
            runtimesR := some (pyListOrNil v.compatibleRuntimes) }
        | none => { changed := false }
      let fr := fetch_s3_checksum H store object_version metadata
      if local_checksum = "" then Except.error Err.assertionError
      else
        let r1 : ManageResult :=
          { r0 with
            bucketR := some bucket,
            object_versionR := some object_version,
            downloadedR := some fr.2 }
        let up : ObjectStore × Option String × Bool :=
          if needsUpload local_checksum fr.1 then
            let u := upload_file H store b (some local_checksum) metadata
            (u.1, u.2, true)
          else
            (store, object_version, false)
        let r2 : ManageResult := if up.2.2 then { r1 with changed := true } else r1
        if needsPublish layer.isSome r2.version_checksum r2.runtimesR
            local_checksum runtimes then
          match (up.1).get (pyTruthyOpt up.2.1) with
          | none => Except.error Err.remoteApiError
          | some obj =>
            let newV : LayerVersion :=
              { version := lam.nextVersion, layerArn := layerArnOf name,
                layerVersionArn := versionArnOf name lam.nextVersion,
                codeSha256 := H obj.body,
                compatibleRuntimes :=
                  if runtimes.isEmpty then none else some runtimes }
            Except.ok
              { lam := { versions := lam.versions ++ [newV],
                         nextVersion := lam.nextVersion + 1 },
                store := up.1,
                result := { r2 with
                            changed := true,
                            arn := some newV.layerArn,
                            version := some newV.version,
                            version_arn := some newV.layerVersionArn,
                            version_checksum := some newV.codeSha256,
                            stdoutSet := true },
                publishCall := some
                  { contentBucket := bucket, contentKey := object_key,
                    contentVersion := pyTruthyOpt up.2.1,
                    runtimesArg :=
                      if runtimes.isEmpty then none else some runtimes } }
        else
          Except.ok { lam := lam, store := up.1, result := r2, publishCall := none }

/-- Well-formed management-plane state: version numbers are pairwise
distinct and all below the plane's next version number. -/
def LayerState.WF (lam : LayerState) : Prop :=
  (lam.versions.map LayerVersion.version).Nodup ∧
    ∀ v ∈ lam.versions, v.version < lam.nextVersion

/-- The pages handed back by the marker walk enumerate exactly the
published versions (possibly with repetitions across pages). -/
def PagesValid (lam : LayerState) (pages : List (List LayerVersion)) : Prop :=
  (∀ v ∈ pages.flatten, v ∈ lam.versions) ∧ ∀ v ∈ lam.versions, v ∈ pages.flatten

/-- The object's checksum metadata, when truthy, is the digest of its
body — the invariant the module's own uploads maintain. -/
def ObjHonest (H : Bytes → String) (md : String) (obj : S3Object) : Prop :=
  match List.lookup md obj.metadata with
  | none => True
  | some s => s = "" ∨ s = H obj.body

/-- Metadata honesty of the current object at the configured location. -/
def HonestCurrent (H : Bytes → String) (md : String) (s : ObjectStore) : Prop :=
  match s.current with
  | none => True
  | some obj => ObjHonest H md obj

/-- Modelled from the spec (§4.4, and `aws_layer_search.py` lines
99-114): `latestInfo(name, requiredChecksum)` filters the published
versions to those whose content checksum equals the required one (all of
them when none is required) and returns the one with the maximum version
number, or nothing when the filtered set is empty. -/
def latestInfoSpec (lam : LayerState) (req : Option String) :
    Option LayerVersion :=
  let cands := lam.versions.filter (fun v =>
    match req with
    | none => true
    | some c => v.codeSha256 == c)
  match pyMax? (cands.map LayerVersion.version) with
  | none => none
  | some m => getLayerVersion lam m

/-! ## Basic lemmas about `pyMax?` -/

theorem pyMax?_eq_none_iff (l : List Nat) : pyMax? l = none ↔ l = [] := by
  cases l with
  | nil => simp [pyMax?]
  | cons n ns =>
    simp only [pyMax?]
    cases h : pyMax? ns <;> simp

theorem pyMax?_mem {l : List Nat} {m : Nat} (h : pyMax? l = some m) : m ∈ l := by
  induction l generalizing m with
  | nil => simp [pyMax?] at h
  | cons n ns ih =>
    simp only [pyMax?] at h
    cases hns : pyMax? ns with
    | none =>
      rw [hns] at h
      simp only [Option.some.injEq] at h
      subst h
      exact List.mem_cons_self n ns
    | some k =>
      rw [hns] at h
      simp only [Option.some.injEq] at h
      subst h
      rcases max_choice n k with hc | hc
      · rw [hc]; exact List.mem_cons_self n ns
      · rw [hc]; exact List.mem_cons_of_mem n (ih hns)

theorem pyMax?_ge {l : List Nat} {m : Nat} (h : pyMax? l = some m) :
    ∀ a ∈ l, a ≤ m := by
  induction l generalizing m with
  | nil => simp
  | cons n ns ih =>
    intro a ha
    simp only [pyMax?] at h
    cases hns : pyMax? ns with
    | none =>
      rw [hns] at h
      simp only [Option.some.injEq] at h
      subst h
      rcases List.mem_cons.mp ha with rfl | ha'
      · exact le_refl a
      · exact absurd hns (by simp [pyMax?_eq_none_iff, List.ne_nil_of_mem ha'])
    | some k =>
      rw [hns] at h
      simp only [Option.some.injEq] at h
      subst h
      rcases List.mem_cons.mp ha with rfl | ha'
      · exact le_max_left a k
      · exact le_trans (ih hns a ha') (le_max_right n k)

theorem pyMax?_eq_some_of {l : List Nat} {m : Nat} (hm : m ∈ l)
    (hub : ∀ a ∈ l, a ≤ m) : pyMax? l = some m := by
  cases h : pyMax? l with
  | none => exact absurd ((pyMax?_eq_none_iff l).mp h) (List.ne_nil_of_mem hm)
  | some k =>
    have h1 : k ≤ m := hub k (pyMax?_mem h)
    have h2 : m ≤ k := pyMax?_ge h m hm
    rw [le_antisymm h1 h2]

theorem pyMax?_congr {l₁ l₂ : List Nat} (h : ∀ a, a ∈ l₁ ↔ a ∈ l₂) :
    pyMax? l₁ = pyMax? l₂ := by
  cases h₁ : pyMax? l₁ with
  | none =>
    rw [pyMax?_eq_none_iff] at h₁
    subst h₁
    cases h₂ : pyMax? l₂ with
    | none => rfl
    | some k => exact absurd ((h k).mpr (pyMax?_mem h₂)) (List.not_mem_nil k)
  | some m =>
    exact (pyMax?_eq_some_of ((h m).mp (pyMax?_mem h₁))
      (fun a ha => pyMax?_ge h₁ a ((h a).mpr ha))).symm

/-! ## Lemmas about `getLayerVersion` -/

theorem getLayerVersion_eq_some {lam : LayerState} {n : Nat} {v : LayerVersion}
    (h : getLayerVersion lam n = some v) : v ∈ lam.versions ∧ v.version = n := by
  unfold getLayerVersion at h
  refine ⟨List.mem_of_find?_eq_some h, ?_⟩
  have := List.find?_some h
  simpa using this

theorem find?_version_of_mem {l : List LayerVersion} {v : LayerVersion}
    (hnd : (l.map LayerVersion.version).Nodup) (hv : v ∈ l) :
    l.find? (fun u => u.version == v.version) = some v := by
  induction l with
  | nil => cases hv
  | cons a l ih =>
    rw [List.map_cons, List.nodup_cons] at hnd
    by_cases hav : a.version = v.version
    · have hva : a = v := by
        rcases List.mem_cons.mp hv with rfl | hv'
        · rfl
        · exact absurd (hav ▸ List.mem_map_of_mem LayerVersion.version hv') hnd.1
      subst hva
      simp [List.find?_cons]
    · have hv' : v ∈ l := by
        rcases List.mem_cons.mp hv with rfl | hv'
        · exact absurd rfl hav
        · exact hv'
      have hb : (a.version == v.version) = false := beq_eq_false_iff_ne.mpr hav
      simp [List.find?_cons, hb, ih hnd.2 hv']

theorem getLayerVersion_of_mem {lam : LayerState} {v : LayerVersion}
    (hnd : (lam.versions.map LayerVersion.version).Nodup)
    (hv : v ∈ lam.versions) : getLayerVersion lam v.version = some v :=
  find?_version_of_mem hnd hv

/-! ## Characterization of the version enumerator -/

theorem mem_glviCandidates_iff {lam : LayerState}
    {pages : List (List LayerVersion)} {lc : PyChecksum} {n : Nat}
    (hpv : PagesValid lam pages)
    (hnd : (lam.versions.map LayerVersion.version).Nodup) :
    n ∈ glviCandidates lam pages lc ↔
      ∃ v ∈ lam.versions, v.version = n ∧ pyFilterOk lc v = true := by
  unfold glviCandidates
  rw [List.mem_filter]
  constructor
  · rintro ⟨hmem, hp⟩
    cases hg : getLayerVersion lam n with
    | none => rw [hg] at hp; exact absurd hp (by simp)
    | some v =>
      rw [hg] at hp
      obtain ⟨hvmem, hvn⟩ := getLayerVersion_eq_some hg
      exact ⟨v, hvmem, hvn, hp⟩
  · rintro ⟨v, hvmem, rfl, hok⟩
    constructor
    · rw [List.mem_dedup, List.mem_map]
      exact ⟨v, hpv.2 v hvmem, rfl⟩
    · rw [getLayerVersion_of_mem hnd hvmem]
      exact hok

theorem glvi_pyTrue (lam : LayerState) (pages : List (List LayerVersion)) :
    get_layer_version_info lam pages PyChecksum.pyTrue = none := by
  unfold get_layer_version_info
  have hc : glviCandidates lam pages PyChecksum.pyTrue = [] := by
    unfold glviCandidates
    rw [List.filter_eq_nil_iff]
    intro n _
    cases hg : getLayerVersion lam n <;>
      simp [hg, pyFilterOk, PyChecksum.truthy, PyChecksum.eqStr]
  rw [hc]
  rfl

theorem glvi_mem_checksum {lam : LayerState} {pages : List (List LayerVersion)}
    {c : String} {w : LayerVersion} (hc : c ≠ "")
    (h : get_layer_version_info lam pages (PyChecksum.pyStr c) = some w) :
    w ∈ lam.versions ∧ w.codeSha256 = c := by
  unfold get_layer_version_info at h
  cases hm : pyMax? (glviCandidates lam pages (PyChecksum.pyStr c)) with
  | none => rw [hm] at h; cases h
  | some m =>
    rw [hm] at h
    change getLayerVersion lam m = some w at h
    obtain ⟨hwmem, hwver⟩ := getLayerVersion_eq_some h
    refine ⟨hwmem, ?_⟩
    have hmmem := pyMax?_mem hm
    unfold glviCandidates at hmmem
    rw [List.mem_filter] at hmmem
    have hp := hmmem.2
    rw [h] at hp
    simp only [pyFilterOk, PyChecksum.truthy, PyChecksum.eqStr,
      Bool.or_eq_true, Bool.not_eq_true', beq_iff_eq] at hp
    rcases hp with hp | hp
    · simp at hp
      exact absurd hp hc
    · exact hp.symm

theorem glvi_max {lam : LayerState} {pages : List (List LayerVersion)}
    {c : String} {w : LayerVersion} (hpv : PagesValid lam pages)
    (hnd : (lam.versions.map LayerVersion.version).Nodup)
    (h : get_layer_version_info lam pages (PyChecksum.pyStr c) = some w) :
    ∀ v ∈ lam.versions, v.codeSha256 = c → v.version ≤ w.version := by
  intro v hv hvck
  unfold get_layer_version_info at h
  cases hm : pyMax? (glviCandidates lam pages (PyChecksum.pyStr c)) with
  | none => rw [hm] at h; cases h
  | some m =>
    rw [hm] at h
    change getLayerVersion lam m = some w at h
    obtain ⟨hwmem, hwver⟩ := getLayerVersion_eq_some h
    have hok : pyFilterOk (PyChecksum.pyStr c) v = true := by
      simp [pyFilterOk, PyChecksum.eqStr, hvck]
    have hvmem : v.version ∈ glviCandidates lam pages (PyChecksum.pyStr c) :=
      (mem_glviCandidates_iff hpv hnd).mpr ⟨v, hv, rfl, hok⟩
    rw [hwver]
    exact pyMax?_ge hm v.version hvmem

theorem glvi_append {lam : LayerState} {newV : LayerVersion} {c : String}
    {k : Nat} (hWF : lam.WF) (hver : newV.version = lam.nextVersion)
    (hck : newV.codeSha256 = c) :
    get_layer_version_info
      { versions := lam.versions ++ [newV], nextVersion := k }
      [lam.versions ++ [newV]] (PyChecksum.pyStr c) = some newV := by
  set lam' : LayerState := { versions := lam.versions ++ [newV], nextVersion := k }
  have hnd' : (lam'.versions.map LayerVersion.version).Nodup := by
    show ((lam.versions ++ [newV]).map LayerVersion.version).Nodup
    rw [List.map_append, List.nodup_append]
    refine ⟨hWF.1, List.nodup_singleton _, ?_⟩
    intro a ha hb
    simp only [List.map_cons, List.map_nil, List.mem_singleton] at hb
    obtain ⟨u, hu, hua⟩ := List.mem_map.mp ha
    have := hWF.2 u hu
    omega
  have hpv' : PagesValid lam' [lam'.versions] := by
    constructor <;> intro v hv <;> simpa [List.flatten] using hv
  have hmemV : newV ∈ lam'.versions := by
    show newV ∈ lam.versions ++ [newV]
    simp
  have hok : pyFilterOk (PyChecksum.pyStr c) newV = true := by
    simp [pyFilterOk, PyChecksum.eqStr, hck]
  have hin : newV.version ∈ glviCandidates lam' [lam'.versions] (PyChecksum.pyStr c) :=
    (mem_glviCandidates_iff hpv' hnd').mpr ⟨newV, hmemV, rfl, hok⟩
  have hub : ∀ a ∈ glviCandidates lam' [lam'.versions] (PyChecksum.pyStr c),
      a ≤ newV.version := by
    intro a ha
    obtain ⟨v, hv, hvn, _⟩ := (mem_glviCandidates_iff hpv' hnd').mp ha
    rcases List.mem_append.mp hv with hv' | hv'
    · have := hWF.2 v hv'
      omega
    · simp only [List.mem_singleton] at hv'
      subst hv'
      omega
  unfold get_layer_version_info
  rw [pyMax?_eq_some_of hin hub]
  exact getLayerVersion_of_mem hnd' hmemV

theorem glvi_eq_latestInfoSpec_none {lam : LayerState}
    {pages : List (List LayerVersion)} (hpv : PagesValid lam pages)
    (hnd : (lam.versions.map LayerVersion.version).Nodup) :
    get_layer_version_info lam pages PyChecksum.pyNone = latestInfoSpec lam none := by
  unfold get_layer_version_info latestInfoSpec
  have hmx : pyMax? (glviCandidates lam pages PyChecksum.pyNone) =
      pyMax? ((lam.versions.filter (fun _ => true)).map LayerVersion.version) := by
    apply pyMax?_congr
    intro n
    rw [mem_glviCandidates_iff hpv hnd]
    constructor
    · rintro ⟨v, hv, rfl, _⟩
      exact List.mem_map.mpr ⟨v, List.mem_filter.mpr ⟨hv, rfl⟩, rfl⟩
    · intro hn
      obtain ⟨v, hv, hvn⟩ := List.mem_map.mp hn
      exact ⟨v, (List.mem_filter.mp hv).1, hvn,
        by simp [pyFilterOk, PyChecksum.truthy]⟩
  rw [hmx]

theorem glvi_eq_latestInfoSpec_some {lam : LayerState}
    {pages : List (List LayerVersion)} {c : String} (hpv : PagesValid lam pages)
    (hnd : (lam.versions.map LayerVersion.version).Nodup) (hc : c ≠ "") :
    get_layer_version_info lam pages (PyChecksum.pyStr c) =
      latestInfoSpec lam (some c) := by
  unfold get_layer_version_info latestInfoSpec
  have hmx : pyMax? (glviCandidates lam pages (PyChecksum.pyStr c)) =
      pyMax? ((lam.versions.filter (fun v => v.codeSha256 == c)).map
        LayerVersion.version) := by
    apply pyMax?_congr
    intro n
    rw [mem_glviCandidates_iff hpv hnd]
    constructor
    · rintro ⟨v, hv, rfl, hok⟩
      refine List.mem_map.mpr ⟨v, List.mem_filter.mpr ⟨hv, ?_⟩, rfl⟩
      simp only [pyFilterOk, PyChecksum.truthy, PyChecksum.eqStr,
        Bool.or_eq_true, Bool.not_eq_true', beq_iff_eq] at hok
      rcases hok with hok | hok
      · simp at hok
        exact absurd hok hc
      · simp [hok]
    · intro hn
      obtain ⟨v, hv, hvn⟩ := List.mem_map.mp hn
      obtain ⟨hv', hvck⟩ := List.mem_filter.mp hv
      refine ⟨v, hv', hvn, ?_⟩
      simp only [beq_iff_eq] at hvck
      simp [pyFilterOk, PyChecksum.eqStr, hvck]
  rw [hmx]

/-! ## Support lemmas about the object store and the upload step -/

theorem vtok_ne_empty (n : Nat) : ("v" ++ toString n) ≠ "" := by
  intro h
  have h2 := congrArg String.length h
  rw [String.length_append] at h2
  simp at h2
  exact absurd h2.1 (by decide)

theorem upload_file_fst (H : Bytes → String) (store : ObjectStore) (b : Bytes)
    (ck md : String) (hck : ck ≠ "") :
    (upload_file H store b (some ck) md).1.current =
        some { body := b, metadata := [(md, ck)] } ∧
      (upload_file H store b (some ck) md).1.get
        (pyTruthyOpt (upload_file H store b (some ck) md).2) =
        some { body := b, metadata := [(md, ck)] } := by
  unfold upload_file ObjectStore.put
  by_cases hv : store.versioned
  · simp only [hv, if_true, if_pos, hck, if_neg]
    refine ⟨rfl, ?_⟩
    simp [pyTruthyOpt, vtok_ne_empty store.nextTok, ObjectStore.get]
  · simp only [hv, if_false, hck, if_neg]
    exact ⟨rfl, rfl⟩

theorem fetch_after_upload (H : Bytes → String) (store : ObjectStore)
    (b : Bytes) (ck md : String) (hck : ck ≠ "") :
    fetch_s3_checksum H (upload_file H store b (some ck) md).1 none md =
      (some ck, some false) := by
  unfold fetch_s3_checksum
  have hcur := (upload_file_fst H store b ck md hck).1
  show (match (upload_file H store b (some ck) md).1.get (pyTruthyOpt none) with
    | none => ((none : Option String), (none : Option Bool))
    | some obj =>
      match List.lookup md obj.metadata with
      | none => (some (H obj.body), some true)
      | some v =>
        if v = "" then (some (H obj.body), some true) else (some v, some false)) =
    (some ck, some false)
  have hget : (upload_file H store b (some ck) md).1.get (pyTruthyOpt none) =
      some { body := b, metadata := [(md, ck)] } := hcur
  rw [hget]
  simp [List.lookup, hck]

theorem needsUpload_false_iff (localck : String) (s3ck : Option String) :
    needsUpload localck s3ck = false ↔
      s3ck = some localck ∧ localck ≠ "" := by
  cases s3ck with
  | none => simp [needsUpload]
  | some s =>
    simp only [needsUpload, Bool.or_eq_false_iff, Bool.not_eq_false',
      beq_iff_eq, beq_eq_false_iff_ne, Option.some.injEq]
    constructor
    · rintro ⟨hs, rfl⟩
      exact ⟨rfl, hs⟩
    · rintro ⟨rfl, hs⟩
      exact ⟨hs, rfl⟩

theorem pyListOrNil_ifEmpty (l : List String) :
    pyListOrNil (if l.isEmpty then none else some l) = l := by
  cases l <;> simp [pyListOrNil]

/-- The invariant `HonestCurrent` pins the checksum `fetch_s3_checksum`
resolves (without an object version) to the digest of the current
object's body. -/
theorem fetch_honest {H : Bytes → String} {store : ObjectStore} {md s : String}
    (hHon : HonestCurrent H md store)
    (h : (fetch_s3_checksum H store none md).1 = some s) :
    ∃ obj, store.current = some obj ∧ H obj.body = s := by
  unfold fetch_s3_checksum at h
  unfold HonestCurrent at hHon
  rw [show store.get (pyTruthyOpt none) = store.current from rfl] at h
  cases hcur : store.current with
  | none =>
    rw [hcur] at h
    dsimp only at h
    simp at h
  | some obj =>
    rw [hcur] at h
    rw [hcur] at hHon
    dsimp only at h
    dsimp only at hHon
    unfold ObjHonest at hHon
    refine ⟨obj, rfl, ?_⟩
    cases hlk : List.lookup md obj.metadata with
    | none =>
      rw [hlk] at h
      dsimp only at h
      exact Option.some.inj h
    | some v =>
      rw [hlk] at h
      rw [hlk] at hHon
      dsimp only at hHon
      by_cases hv : v = ""
      · dsimp only at h
        rw [if_pos hv] at h
        dsimp only at h
        exact Option.some.inj h
      · dsimp only at h
        rw [if_neg hv] at h
        dsimp only at h
        have hvs : v = s := Option.some.inj h
        rcases hHon with h' | h'
        · exact absurd h' hv
        · rw [← hvs, h']

/-! ## The `absent` branch -/

theorem destroy_layer_self (lam : LayerState) :
    destroy_layer lam [lam.versions] =
      ({ versions := [], nextVersion := lam.nextVersion },
        !lam.versions.isEmpty) := by
  unfold destroy_layer
  have hflat : ([lam.versions] : List (List LayerVersion)).flatten = lam.versions := by
    simp
  rw [hflat]
  dsimp only
  have hfil : lam.versions.filter
      (fun v => !((lam.versions.map LayerVersion.version).dedup.contains v.version))
      = [] := by
    rw [List.filter_eq_nil_iff]
    intro v hv
    have : v.version ∈ (lam.versions.map LayerVersion.version).dedup :=
      List.mem_dedup.mpr (List.mem_map_of_mem LayerVersion.version hv)
    simp [this]
  rw [hfil]
  have hemp : ((lam.versions.map LayerVersion.version).dedup).isEmpty =
      lam.versions.isEmpty := by
    cases hv : lam.versions.isEmpty
    · rw [List.isEmpty_eq_false] at hv
      have : (lam.versions.map LayerVersion.version).dedup ≠ [] := by
        simp [List.dedup_eq_nil, hv]
      simp [List.isEmpty_eq_false, this]
    · rw [List.isEmpty_iff] at hv
      simp [hv]
  rw [hemp]

theorem manage_absent_eval (H : Bytes → String) (name : String)
    (lam : LayerState) (store : ObjectStore) (bu k ov : Option String)
    (path : Option Bytes) (rts : Option (List String)) (md : String) :
    manage_lambda_layer H name lam store bu k ov path StateParam.absent rts md =
      Except.ok { lam := { versions := [], nextVersion := lam.nextVersion },
                  store := store,
                  result := { changed := !lam.versions.isEmpty },
                  publishCall := none } := by
  have he : manage_lambda_layer H name lam store bu k ov path StateParam.absent rts md =
      (match get_layer_version_info lam [lam.versions] PyChecksum.pyTrue with
       | some v =>
         Except.ok
           { lam := (destroy_layer lam [lam.versions]).1, store := store,
             result := { changed := true, arn := some v.layerArn,
                         version := some v.version,
                         version_arn := some v.layerVersionArn,
                         version_checksum := some v.codeSha256,
                         runtimesR := some (pyListOrNil v.compatibleRuntimes) },
             publishCall := none }
       | none =>
         Except.ok
           { lam := (destroy_layer lam [lam.versions]).1, store := store,
             result := { changed := (destroy_layer lam [lam.versions]).2 },
             publishCall := none }) := rfl
  rw [he, glvi_pyTrue]
  dsimp only
  rw [destroy_layer_self]

/-! ## Evaluation lemmas for the `present` branch of the reconciler -/

theorem bool_ite_false {α : Sort u} (c : Bool) (h : c = false) (a b : α) :
    (if c then a else b) = b := by
  subst h
  rfl

theorem bool_ite_true {α : Sort u} (c : Bool) (h : c = true) (a b : α) :
    (if c then a else b) = a := by
  subst h
  rfl

theorem manage_present_noop (H : Bytes → String) (name : String)
    (lam : LayerState) (store : ObjectStore) (bu k ov : Option String)
    (b : Bytes) (rts : Option (List String)) (md : String) (w : LayerVersion)
    (hL : get_layer_version_info lam [lam.versions] (PyChecksum.pyStr (H b)) = some w)
    (hck : w.codeSha256 = H b)
    (hrt : pyListOrNil w.compatibleRuntimes = rts.getD [])
    (hF1 : (fetch_s3_checksum H store ov md).1 = some (H b))
    (hb : ¬(H b = "")) :
    manage_lambda_layer H name lam store bu k ov (some b) StateParam.present rts md =
      Except.ok
        { lam := lam, store := store,
          result := { changed := false, arn := some w.layerArn,
                      version := some w.version,
                      version_arn := some w.layerVersionArn,
                      version_checksum := some w.codeSha256,
                      runtimesR := some (pyListOrNil w.compatibleRuntimes),
                      bucketR := some bu, object_versionR := some ov,
                      downloadedR := some (fetch_s3_checksum H store ov md).2 },
          publishCall := none } := by
  have hup : needsUpload (H b) (fetch_s3_checksum H store ov md).1 = false := by
    rw [hF1]
    simp [needsUpload, hb]
  have hpub : needsPublish (some w).isSome (some w.codeSha256)
      (some (pyListOrNil w.compatibleRuntimes)) (H b) (rts.getD []) = false := by
    simp [needsPublish, hck, hrt]
  unfold manage_lambda_layer
  dsimp only
  rw [hL]
  dsimp only
  rw [if_neg hb]
  rw [bool_ite_false _ hup]
  dsimp only
  rw [bool_ite_false false rfl]
  dsimp only
  rw [bool_ite_false _ hpub]

theorem manage_present_assert (H : Bytes → String) (name : String)
    (lam : LayerState) (store : ObjectStore) (bu k ov : Option String)
    (b : Bytes) (rts : Option (List String)) (md : String)
    (hb : H b = "") :
    manage_lambda_layer H name lam store bu k ov (some b) StateParam.present rts md =
      Except.error Err.assertionError := by
  unfold manage_lambda_layer
  dsimp only
  rw [if_pos hb]

theorem manage_present_upload_only (H : Bytes → String) (name : String)
    (lam : LayerState) (store : ObjectStore) (bu k ov : Option String)
    (b : Bytes) (rts : Option (List String)) (md : String) (w : LayerVersion)
    (hL : get_layer_version_info lam [lam.versions] (PyChecksum.pyStr (H b)) = some w)
    (hck : w.codeSha256 = H b)
    (hrt : pyListOrNil w.compatibleRuntimes = rts.getD [])
    (hup : needsUpload (H b) (fetch_s3_checksum H store ov md).1 = true)
    (hb : ¬(H b = "")) :
    manage_lambda_layer H name lam store bu k ov (some b) StateParam.present rts md =
      Except.ok
        { lam := lam, store := (upload_file H store b (some (H b)) md).1,
          result := { changed := true, arn := some w.layerArn,
                      version := some w.version,
                      version_arn := some w.layerVersionArn,
                      version_checksum := some w.codeSha256,
                      runtimesR := some (pyListOrNil w.compatibleRuntimes),
                      bucketR := some bu, object_versionR := some ov,
                      downloadedR := some (fetch_s3_checksum H store ov md).2 },
          publishCall := none } := by
  have hpub : needsPublish (some w).isSome (some w.codeSha256)
      (some (pyListOrNil w.compatibleRuntimes)) (H b) (rts.getD []) = false := by
    simp [needsPublish, hck, hrt]
  unfold manage_lambda_layer
  dsimp only
  rw [hL]
  dsimp only
  rw [if_neg hb]
  rw [bool_ite_true _ hup]
  dsimp only
  rw [bool_ite_true true rfl]
  dsimp only
  rw [bool_ite_false _ hpub]

theorem manage_present_republish (H : Bytes → String) (name : String)
    (lam : LayerState) (store : ObjectStore) (bu k ov : Option String)
    (b : Bytes) (rts : Option (List String)) (md : String) (w : LayerVersion)
    (obj : S3Object)
    (hL : get_layer_version_info lam [lam.versions] (PyChecksum.pyStr (H b)) = some w)
    (hrtne : ¬(pyListOrNil w.compatibleRuntimes = rts.getD []))
    (hup : needsUpload (H b) (fetch_s3_checksum H store ov md).1 = false)
    (hobj : store.get (pyTruthyOpt ov) = some obj)
    (hb : ¬(H b = "")) :
    manage_lambda_layer H name lam store bu k ov (some b) StateParam.present rts md =
      Except.ok
        { lam := { versions := lam.versions ++
                     [{ version := lam.nextVersion, layerArn := layerArnOf name,
                        layerVersionArn := versionArnOf name lam.nextVersion,
                        codeSha256 := H obj.body,
                        compatibleRuntimes :=
                          if (rts.getD []).isEmpty then none
                          else some (rts.getD []) }],
                   nextVersion := lam.nextVersion + 1 },
          store := store,
          result := { changed := true, arn := some (layerArnOf name),
                      version := some lam.nextVersion,
                      version_arn := some (versionArnOf name lam.nextVersion),
                      version_checksum := some (H obj.body),
                      runtimesR := some (pyListOrNil w.compatibleRuntimes),
                      bucketR := some bu, object_versionR := some ov,
                      downloadedR := some (fetch_s3_checksum H store ov md).2,
                      stdoutSet := true },
          publishCall := some
            { contentBucket := bu, contentKey := k,
              contentVersion := pyTruthyOpt ov,
              runtimesArg :=
                if (rts.getD []).isEmpty then none else some (rts.getD []) } } := by
  have hpub : needsPublish (some w).isSome (some w.codeSha256)
      (some (pyListOrNil w.compatibleRuntimes)) (H b) (rts.getD []) = true := by
    simp [needsPublish, hrtne]
  unfold manage_lambda_layer
  dsimp only
  rw [hL]
  dsimp only
  rw [if_neg hb]
  rw [bool_ite_false _ hup]
  dsimp only
  rw [bool_ite_false false rfl]
  dsimp only
  rw [bool_ite_true _ hpub]
  rw [hobj]

theorem manage_present_publish_nolayer (H : Bytes → String) (name : String)
    (lam : LayerState) (store : ObjectStore) (bu k ov : Option String)
    (b : Bytes) (rts : Option (List String)) (md : String) (obj : S3Object)
    (hL : get_layer_version_info lam [lam.versions] (PyChecksum.pyStr (H b)) = none)
    (hup : needsUpload (H b) (fetch_s3_checksum H store ov md).1 = false)
    (hobj : store.get (pyTruthyOpt ov) = some obj)
    (hb : ¬(H b = "")) :
    manage_lambda_layer H name lam store bu k ov (some b) StateParam.present rts md =
      Except.ok
        { lam := { versions := lam.versions ++
                     [{ version := lam.nextVersion, layerArn := layerArnOf name,
                        layerVersionArn := versionArnOf name lam.nextVersion,
                        codeSha256 := H obj.body,
                        compatibleRuntimes :=
                          if (rts.getD []).isEmpty then none
                          else some (rts.getD []) }],
                   nextVersion := lam.nextVersion + 1 },
          store := store,
          result := { changed := true, arn := some (layerArnOf name),
                      version := some lam.nextVersion,
                      version_arn := some (versionArnOf name lam.nextVersion),
                      version_checksum := some (H obj.body),
                      bucketR := some bu, object_versionR := some ov,
                      downloadedR := some (fetch_s3_checksum H store ov md).2,
                      stdoutSet := true },
          publishCall := some
            { contentBucket := bu, contentKey := k,
              contentVersion := pyTruthyOpt ov,
              runtimesArg :=
                if (rts.getD []).isEmpty then none else some (rts.getD []) } } := by
  have hpub : needsPublish (none : Option LayerVersion).isSome none none
      (H b) (rts.getD []) = true := by
    simp [needsPublish]
  unfold manage_lambda_layer
  dsimp only
  rw [hL]
  dsimp only
  rw [if_neg hb]
  rw [bool_ite_false _ hup]
  dsimp only
  rw [bool_ite_false false rfl]
  dsimp only
  rw [bool_ite_true _ hpub]
  rw [hobj]

theorem manage_present_republish_upload (H : Bytes → String) (name : String)
    (lam : LayerState) (store : ObjectStore) (bu k ov : Option String)
    (b : Bytes) (rts : Option (List String)) (md : String) (w : LayerVersion)
    (hL : get_layer_version_info lam [lam.versions] (PyChecksum.pyStr (H b)) = some w)
    (hrtne : ¬(pyListOrNil w.compatibleRuntimes = rts.getD []))
    (hup : needsUpload (H b) (fetch_s3_checksum H store ov md).1 = true)
    (hb : ¬(H b = "")) :
    manage_lambda_layer H name lam store bu k ov (some b) StateParam.present rts md =
      Except.ok
        { lam := { versions := lam.versions ++
                     [{ version := lam.nextVersion, layerArn := layerArnOf name,
                        layerVersionArn := versionArnOf name lam.nextVersion,
                        codeSha256 := H b,
                        compatibleRuntimes :=
                          if (rts.getD []).isEmpty then none
                          else some (rts.getD []) }],
                   nextVersion := lam.nextVersion + 1 },
          store := (upload_file H store b (some (H b)) md).1,
          result := { changed := true, arn := some (layerArnOf name),
                      version := some lam.nextVersion,
                      version_arn := some (versionArnOf name lam.nextVersion),
                      version_checksum := some (H b),
                      runtimesR := some (pyListOrNil w.compatibleRuntimes),
                      bucketR := some bu, object_versionR := some ov,
                      downloadedR := some (fetch_s3_checksum H store ov md).2,
                      stdoutSet := true },
          publishCall := some
            { contentBucket := bu, contentKey := k,
              contentVersion := pyTruthyOpt (upload_file H store b (some (H b)) md).2,
              runtimesArg :=
                if (rts.getD []).isEmpty then none else some (rts.getD []) } } := by
  have hpub : needsPublish (some w).isSome (some w.codeSha256)
      (some (pyListOrNil w.compatibleRuntimes)) (H b) (rts.getD []) = true := by
    simp [needsPublish, hrtne]
  unfold manage_lambda_layer
  dsimp only
  rw [hL]
  dsimp only
  rw [if_neg hb]
  rw [bool_ite_true _ hup]
  dsimp only
  rw [bool_ite_true true rfl]
  dsimp only
  rw [bool_ite_true _ hpub]
  rw [(upload_file_fst H store b (H b) md hb).2]

theorem manage_present_publish_nolayer_upload (H : Bytes → String) (name : String)
    (lam : LayerState) (store : ObjectStore) (bu k ov : Option String)
    (b : Bytes) (rts : Option (List String)) (md : String)
    (hL : get_layer_version_info lam [lam.versions] (PyChecksum.pyStr (H b)) = none)
    (hup : needsUpload (H b) (fetch_s3_checksum H store ov md).1 = true)
    (hb : ¬(H b = "")) :
    manage_lambda_layer H name lam store bu k ov (some b) StateParam.present rts md =
      Except.ok
        { lam := { versions := lam.versions ++
                     [{ version := lam.nextVersion, layerArn := layerArnOf name,
                        layerVersionArn := versionArnOf name lam.nextVersion,
                        codeSha256 := H b,
                        compatibleRuntimes :=
                          if (rts.getD []).isEmpty then none
                          else some (rts.getD []) }],
                   nextVersion := lam.nextVersion + 1 },
          store := (upload_file H store b (some (H b)) md).1,
          result := { changed := true, arn := some (layerArnOf name),
                      version := some lam.nextVersion,
                      version_arn := some (versionArnOf name lam.nextVersion),
                      version_checksum := some (H b),
                      bucketR := some bu, object_versionR := some ov,
                      downloadedR := some (fetch_s3_checksum H store ov md).2,
                      stdoutSet := true },
          publishCall := some
            { contentBucket := bu, contentKey := k,
              contentVersion := pyTruthyOpt (upload_file H store b (some (H b)) md).2,
              runtimesArg :=
                if (rts.getD []).isEmpty then none else some (rts.getD []) } } := by
  have hpub : needsPublish (none : Option LayerVersion).isSome none none
      (H b) (rts.getD []) = true := by
    simp [needsPublish]
  unfold manage_lambda_layer
  dsimp only
  rw [hL]
  dsimp only
  rw [if_neg hb]
  rw [bool_ite_true _ hup]
  dsimp only
  rw [bool_ite_true true rfl]
  dsimp only
  rw [bool_ite_true _ hpub]
  rw [(upload_file_fst H store b (H b) md hb).2]

theorem manage_present_pub_fail_layer (H : Bytes → String) (name : String)
    (lam : LayerState) (store : ObjectStore) (bu k ov : Option String)
    (b : Bytes) (rts : Option (List String)) (md : String) (w : LayerVersion)
    (hL : get_layer_version_info lam [lam.versions] (PyChecksum.pyStr (H b)) = some w)
    (hrtne : ¬(pyListOrNil w.compatibleRuntimes = rts.getD []))
    (hup : needsUpload (H b) (fetch_s3_checksum H store ov md).1 = false)
    (hobj : store.get (pyTruthyOpt ov) = none)
    (hb : ¬(H b = "")) :
    manage_lambda_layer H name lam store bu k ov (some b) StateParam.present rts md =
      Except.error Err.remoteApiError := by
  have hpub : needsPublish (some w).isSome (some w.codeSha256)
      (some (pyListOrNil w.compatibleRuntimes)) (H b) (rts.getD []) = true := by
    simp [needsPublish, hrtne]
  unfold manage_lambda_layer
  dsimp only
  rw [hL]
  dsimp only
  rw [if_neg hb]
  rw [bool_ite_false _ hup]
  dsimp only
  rw [bool_ite_false false rfl]
  dsimp only
  rw [bool_ite_true _ hpub]
  rw [hobj]

theorem manage_present_pub_fail_nolayer (H : Bytes → String) (name : String)
    (lam : LayerState) (store : ObjectStore) (bu k ov : Option String)
    (b : Bytes) (rts : Option (List String)) (md : String)
    (hL : get_layer_version_info lam [lam.versions] (PyChecksum.pyStr (H b)) = none)
    (hup : needsUpload (H b) (fetch_s3_checksum H store ov md).1 = false)
    (hobj : store.get (pyTruthyOpt ov) = none)
    (hb : ¬(H b = "")) :
    manage_lambda_layer H name lam store bu k ov (some b) StateParam.present rts md =
      Except.error Err.remoteApiError := by
  have hpub : needsPublish (none : Option LayerVersion).isSome none none
      (H b) (rts.getD []) = true := by
    simp [needsPublish]
  unfold manage_lambda_layer
  dsimp only
  rw [hL]
  dsimp only
  rw [if_neg hb]
  rw [bool_ite_false _ hup]
  dsimp only
  rw [bool_ite_false false rfl]
  dsimp only
  rw [bool_ite_true _ hpub]
  rw [hobj]

/-- The six possible outcomes of a successful `present` reconciliation,
read off the branch structure of lines 296-330: (1) matching version,
matching runtimes, object up to date — pure no-op; (2) matching version,
matching runtimes, stale object — upload only; (3) matching version,
runtimes differ, object up to date — re-publish at the existing object;
(4) matching version, runtimes differ, stale object — upload then
publish; (5) no matching version, object up to date — publish; (6) no
matching version, stale object — upload then publish. -/
theorem manage_present_split (H : Bytes → String) (name : String)
    (lam : LayerState) (store : ObjectStore) (bu k ov : Option String)
    (b : Bytes) (rts : Option (List String)) (md : String) (out : ManageOut)
    (hok : manage_lambda_layer H name lam store bu k ov (some b)
      StateParam.present rts md = Except.ok out) :
    ¬(H b = "") ∧
    ((∃ w, get_layer_version_info lam [lam.versions] (PyChecksum.pyStr (H b)) = some w ∧
        w ∈ lam.versions ∧ w.codeSha256 = H b ∧
        pyListOrNil w.compatibleRuntimes = rts.getD [] ∧
        needsUpload (H b) (fetch_s3_checksum H store ov md).1 = false ∧
        out = { lam := lam, store := store,
                result := { changed := false, arn := some w.layerArn,
                            version := some w.version,
                            version_arn := some w.layerVersionArn,
                            version_checksum := some w.codeSha256,
                            runtimesR := some (pyListOrNil w.compatibleRuntimes),
                            bucketR := some bu, object_versionR := some ov,
                            downloadedR := some (fetch_s3_checksum H store ov md).2 },
                publishCall := none }) ∨
     (∃ w, get_layer_version_info lam [lam.versions] (PyChecksum.pyStr (H b)) = some w ∧
        w ∈ lam.versions ∧ w.codeSha256 = H b ∧
        pyListOrNil w.compatibleRuntimes = rts.getD [] ∧
        needsUpload (H b) (fetch_s3_checksum H store ov md).1 = true ∧
        out = { lam := lam, store := (upload_file H store b (some (H b)) md).1,
                result := { changed := true, arn := some w.layerArn,
                            version := some w.version,
                            version_arn := some w.layerVersionArn,
                            version_checksum := some w.codeSha256,
                            runtimesR := some (pyListOrNil w.compatibleRuntimes),
                            bucketR := some bu, object_versionR := some ov,
                            downloadedR := some (fetch_s3_checksum H store ov md).2 },
                publishCall := none }) ∨
     (∃ w obj, get_layer_version_info lam [lam.versions] (PyChecksum.pyStr (H b)) = some w ∧
        w ∈ lam.versions ∧ w.codeSha256 = H b ∧
        ¬(pyListOrNil w.compatibleRuntimes = rts.getD []) ∧
        needsUpload (H b) (fetch_s3_checksum H store ov md).1 = false ∧
        store.get (pyTruthyOpt ov) = some obj ∧
        out = { lam := { versions := lam.versions ++
                           [{ version := lam.nextVersion, layerArn := layerArnOf name,
                              layerVersionArn := versionArnOf name lam.nextVersion,
                              codeSha256 := H obj.body,
                              compatibleRuntimes :=
                                if (rts.getD []).isEmpty then none
                                else some (rts.getD []) }],
                         nextVersion := lam.nextVersion + 1 },
                store := store,
                result := { changed := true, arn := some (layerArnOf name),
                            version := some lam.nextVersion,
                            version_arn := some (versionArnOf name lam.nextVersion),
                            version_checksum := some (H obj.body),
                            runtimesR := some (pyListOrNil w.compatibleRuntimes),
                            bucketR := some bu, object_versionR := some ov,
                            downloadedR := some (fetch_s3_checksum H store ov md).2,
                            stdoutSet := true },
                publishCall := some
                  { contentBucket := bu, contentKey := k,
                    contentVersion := pyTruthyOpt ov,
                    runtimesArg :=
                      if (rts.getD []).isEmpty then none
                      else some (rts.getD []) } }) ∨
     (∃ w, get_layer_version_info lam [lam.versions] (PyChecksum.pyStr (H b)) = some w ∧
        w ∈ lam.versions ∧ w.codeSha256 = H b ∧
        ¬(pyListOrNil w.compatibleRuntimes = rts.getD []) ∧
        needsUpload (H b) (fetch_s3_checksum H store ov md).1 = true ∧
        out = { lam := { versions := lam.versions ++
                           [{ version := lam.nextVersion, layerArn := layerArnOf name,
                              layerVersionArn := versionArnOf name lam.nextVersion,
                              codeSha256 := H b,
                              compatibleRuntimes :=
                                if (rts.getD []).isEmpty then none
                                else some (rts.getD []) }],
                         nextVersion := lam.nextVersion + 1 },
                store := (upload_file H store b (some (H b)) md).1,
                result := { changed := true, arn := some (layerArnOf name),
                            version := some lam.nextVersion,
                            version_arn := some (versionArnOf name lam.nextVersion),
                            version_checksum := some (H b),
                            runtimesR := some (pyListOrNil w.compatibleRuntimes),
                            bucketR := some bu, object_versionR := some ov,
                            downloadedR := some (fetch_s3_checksum H store ov md).2,
                            stdoutSet := true },
                publishCall := some
                  { contentBucket := bu, contentKey := k,
                    contentVersion :=
                      pyTruthyOpt (upload_file H store b (some (H b)) md).2,
                    runtimesArg :=
                      if (rts.getD []).isEmpty then none
                      else some (rts.getD []) } }) ∨
     (∃ obj, get_layer_version_info lam [lam.versions] (PyChecksum.pyStr (H b)) = none ∧
        needsUpload (H b) (fetch_s3_checksum H store ov md).1 = false ∧
        store.get (pyTruthyOpt ov) = some obj ∧
        out = { lam := { versions := lam.versions ++
                           [{ version := lam.nextVersion, layerArn := layerArnOf name,
                              layerVersionArn := versionArnOf name lam.nextVersion,
                              codeSha256 := H obj.body,
                              compatibleRuntimes :=
                                if (rts.getD []).isEmpty then none
                                else some (rts.getD []) }],
                         nextVersion := lam.nextVersion + 1 },
                store := store,
                result := { changed := true, arn := some (layerArnOf name),
                            version := some lam.nextVersion,
                            version_arn := some (versionArnOf name lam.nextVersion),
                            version_checksum := some (H obj.body),
                            bucketR := some bu, object_versionR := some ov,
                            downloadedR := some (fetch_s3_checksum H store ov md).2,
                            stdoutSet := true },
                publishCall := some
                  { contentBucket := bu, contentKey := k,
                    contentVersion := pyTruthyOpt ov,
                    runtimesArg :=
                      if (rts.getD []).isEmpty then none
                      else some (rts.getD []) } }) ∨
     (get_layer_version_info lam [lam.versions] (PyChecksum.pyStr (H b)) = none ∧
        needsUpload (H b) (fetch_s3_checksum H store ov md).1 = true ∧
        out = { lam := { versions := lam.versions ++
                           [{ version := lam.nextVersion, layerArn := layerArnOf name,
                              layerVersionArn := versionArnOf name lam.nextVersion,
                              codeSha256 := H b,
                              compatibleRuntimes :=
                                if (rts.getD []).isEmpty then none
                                else some (rts.getD []) }],
                         nextVersion := lam.nextVersion + 1 },
                store := (upload_file H store b (some (H b)) md).1,
                result := { changed := true, arn := some (layerArnOf name),
                            version := some lam.nextVersion,
                            version_arn := some (versionArnOf name lam.nextVersion),
                            version_checksum := some (H b),
                            bucketR := some bu, object_versionR := some ov,
                            downloadedR := some (fetch_s3_checksum H store ov md).2,
                            stdoutSet := true },
                publishCall := some
                  { contentBucket := bu, contentKey := k,
                    contentVersion :=
                      pyTruthyOpt (upload_file H store b (some (H b)) md).2,
                    runtimesArg :=
                      if (rts.getD []).isEmpty then none
                      else some (rts.getD []) } })) := by
  by_cases hb : H b = ""
  · rw [manage_present_assert H name lam store bu k ov b rts md hb] at hok
    cases hok
  refine ⟨hb, ?_⟩
  cases hL : get_layer_version_info lam [lam.versions] (PyChecksum.pyStr (H b)) with
  | some w =>
    obtain ⟨hwmem, hwck⟩ := glvi_mem_checksum hb hL
    by_cases hrt : pyListOrNil w.compatibleRuntimes = rts.getD []
    · cases hup : needsUpload (H b) (fetch_s3_checksum H store ov md).1 with
      | false =>
        have hF1 : (fetch_s3_checksum H store ov md).1 = some (H b) :=
          ((needsUpload_false_iff _ _).mp hup).1
        rw [manage_present_noop H name lam store bu k ov b rts md w hL hwck hrt
          hF1 hb] at hok
        exact Or.inl ⟨w, rfl, hwmem, hwck, hrt, rfl, (Except.ok.inj hok).symm⟩
      | true =>
        rw [manage_present_upload_only H name lam store bu k ov b rts md w hL
          hwck hrt hup hb] at hok
        exact Or.inr (Or.inl ⟨w, rfl, hwmem, hwck, hrt, rfl,
          (Except.ok.inj hok).symm⟩)
    · cases hup : needsUpload (H b) (fetch_s3_checksum H store ov md).1 with
      | false =>
        cases hobj : store.get (pyTruthyOpt ov) with
        | none =>
          rw [manage_present_pub_fail_layer H name lam store bu k ov b rts md w
            hL hrt hup hobj hb] at hok
          cases hok
        | some obj =>
          rw [manage_present_republish H name lam store bu k ov b rts md w obj
            hL hrt hup hobj hb] at hok
          exact Or.inr (Or.inr (Or.inl ⟨w, obj, rfl, hwmem, hwck, hrt, rfl, rfl,
            (Except.ok.inj hok).symm⟩))
      | true =>
        rw [manage_present_republish_upload H name lam store bu k ov b rts md w
          hL hrt hup hb] at hok
        exact Or.inr (Or.inr (Or.inr (Or.inl ⟨w, rfl, hwmem, hwck, hrt, rfl,
          (Except.ok.inj hok).symm⟩)))
  | none =>
    cases hup : needsUpload (H b) (fetch_s3_checksum H store ov md).1 with
    | false =>
      cases hobj : store.get (pyTruthyOpt ov) with
      | none =>
        rw [manage_present_pub_fail_nolayer H name lam store bu k ov b rts md
          hL hup hobj hb] at hok
        cases hok
      | some obj =>
        rw [manage_present_publish_nolayer H name lam store bu k ov b rts md obj
          hL hup hobj hb] at hok
        exact Or.inr (Or.inr (Or.inr (Or.inr (Or.inl ⟨obj, rfl, rfl, rfl,
          (Except.ok.inj hok).symm⟩))))
    | true =>
      rw [manage_present_publish_nolayer_upload H name lam store bu k ov b rts md
        hL hup hb] at hok
      exact Or.inr (Or.inr (Or.inr (Or.inr (Or.inr ⟨rfl, rfl,
        (Except.ok.inj hok).symm⟩))))

theorem glvi_max_none {lam : LayerState} {pages : List (List LayerVersion)}
    {w : LayerVersion} (hpv : PagesValid lam pages)
    (hnd : (lam.versions.map LayerVersion.version).Nodup)
    (h : get_layer_version_info lam pages PyChecksum.pyNone = some w) :
    ∀ v ∈ lam.versions, v.version ≤ w.version := by
  intro v hv
  unfold get_layer_version_info at h
  cases hm : pyMax? (glviCandidates lam pages PyChecksum.pyNone) with
  | none => rw [hm] at h; cases h
  | some m =>
    rw [hm] at h
    change getLayerVersion lam m = some w at h
    obtain ⟨hwmem, hwver⟩ := getLayerVersion_eq_some h
    have hok : pyFilterOk PyChecksum.pyNone v = true := by
      simp [pyFilterOk, PyChecksum.truthy]
    have hvmem : v.version ∈ glviCandidates lam pages PyChecksum.pyNone :=
      (mem_glviCandidates_iff hpv hnd).mpr ⟨v, hv, rfl, hok⟩
    rw [hwver]
    exact pyMax?_ge hm v.version hvmem

/-! ## Concrete fixtures used by witnesses and counterexamples -/

/-- A concrete stand-in for the SHA-256/base64 content hasher: injective
on the small byte blobs used below, never empty. -/
def hashDemo : Bytes → String :=
  fun b => "h" ++ toString (b.foldl (fun a n => 10 * a + n) 1)

def bundleA : Bytes := [1]

def bundleB : Bytes := [2]

def lamDemoV1 : LayerVersion :=
  { version := 1, layerArn := "arn:aws:lambda:layer:L",
    layerVersionArn := "arn:aws:lambda:layer:L:1", codeSha256 := "c1",
    compatibleRuntimes := none }

def lamDemoV2 : LayerVersion :=
  { version := 2, layerArn := "arn:aws:lambda:layer:L",
    layerVersionArn := "arn:aws:lambda:layer:L:2", codeSha256 := "c2",
    compatibleRuntimes := some ["python3.8"] }

def lamDemo : LayerState := { versions := [lamDemoV1, lamDemoV2], nextVersion := 3 }

/-- Two listing pages that repeat `lamDemoV1`, exercising the mandatory
dedup across pages. -/
def pagesDemo : List (List LayerVersion) := [[lamDemoV2, lamDemoV1], [lamDemoV1]]

def lamEmpty : LayerState := { versions := [], nextVersion := 1 }

def storeDemoMissing : ObjectStore :=
  { versioned := false, current := none, history := [], nextTok := 0 }

def objDemoMeta : S3Object := { body := [7], metadata := [("sha256", "c7")] }

def storeDemoMeta : ObjectStore :=
  { versioned := false, current := some objDemoMeta, history := [], nextTok := 0 }

def objDemoBare : S3Object := { body := [7], metadata := [] }

def storeDemoBare : ObjectStore :=
  { versioned := false, current := some objDemoBare, history := [], nextTok := 0 }

/-- The store after uploading `bundleA` to the empty demo store. -/
def storeDemoUploaded : ObjectStore :=
  { versioned := false,
    current := some { body := bundleA, metadata := [("sha256", hashDemo bundleA)] },
    history := [], nextTok := 0 }

/-- Output of the concrete first-deploy-with-runtimes scenario: reconciling
`present` for `bundleA` with runtimes `["python3.8"]` against an empty
layer state and an empty store. -/
def outDemoPublish : ManageOut :=
  { lam := { versions := [{ version := 1, layerArn := layerArnOf "L",
                            layerVersionArn := versionArnOf "L" 1,
                            codeSha256 := hashDemo bundleA,
                            compatibleRuntimes := some ["python3.8"] }],
             nextVersion := 2 },
    store := storeDemoUploaded,
    result := { changed := true, arn := some (layerArnOf "L"),
                version := some 1, version_arn := some (versionArnOf "L" 1),
                version_checksum := some (hashDemo bundleA),
                bucketR := some (some "bkt"), object_versionR := some none,
                downloadedR := some none, stdoutSet := true },
    publishCall := some { contentBucket := some "bkt", contentKey := some "k",
                          contentVersion := none,
                          runtimesArg := some ["python3.8"] } }

/-! ## Claim theorems -/

/-- C9: for state `absent` the reconciler deletes every published version
of the name, reports `changed` exactly when some version existed, leaves
the object store untouched, never calls publish, and accepts the bundle
path and bucket/key as unset (`none`) without error — in particular on a
never-created name (`lam.versions = []`) it returns `changed = false`
without raising. -/
theorem c9_absent_teardown (H : Bytes → String) (name : String)
    (lam : LayerState) (store : ObjectStore) (bu k ov : Option String)
    (path : Option Bytes) (rts : Option (List String)) (md : String) :
    manage_lambda_layer H name lam store bu k ov path StateParam.absent rts md =
      Except.ok { lam := { versions := [], nextVersion := lam.nextVersion },
                  store := store,
                  result := { changed := !lam.versions.isEmpty },
                  publishCall := none } :=
  manage_absent_eval H name lam store bu k ov path rts md

/-- C10: for state `absent` the checksum constraint handed to the version
lookup is the Python boolean `True`, which compares unequal to every
checksum string, so the lookup always returns nothing and the `absent`
result carries only the `changed` flag — never `arn`, `version`,
`version_arn`, `version_checksum`, `runtimes` or any other field. -/
theorem c10_absent_reports_only_changed (H : Bytes → String) (name : String)
    (lam : LayerState) (store : ObjectStore) (bu k ov : Option String)
    (path : Option Bytes) (rts : Option (List String)) (md : String) :
    (∀ s, PyChecksum.pyTrue.eqStr s = false) ∧
    (∀ pages, get_layer_version_info lam pages PyChecksum.pyTrue = none) ∧
    (manage_lambda_layer H name lam store bu k ov path StateParam.absent rts md).map
        (fun o => (o.result.arn, o.result.version, o.result.version_arn,
                   o.result.version_checksum, o.result.runtimesR,
                   o.result.bucketR, o.result.object_versionR,
                   o.result.downloadedR, o.result.stdoutSet)) =
      Except.ok (none, none, none, none, none, none, none, none, false) := by
  refine ⟨fun s => rfl, fun pages => glvi_pyTrue lam pages, ?_⟩
  rw [manage_absent_eval]
  rfl

/-- C5: the version enumerator pages through the marker cursor,
deduplicates version numbers repeated across pages, filters by the
required checksum when one is given, and returns the detail of the
maximum surviving version number (nothing when the filtered set is
empty) — i.e. it computes exactly the spec's `latestInfo` over the set
of published versions, for any page decomposition. -/
theorem c5_version_enumerator (lam : LayerState)
    (pages : List (List LayerVersion)) (hpv : PagesValid lam pages)
    (hnd : (lam.versions.map LayerVersion.version).Nodup) :
    get_layer_version_info lam pages PyChecksum.pyNone = latestInfoSpec lam none ∧
    ∀ c, c ≠ "" →
      get_layer_version_info lam pages (PyChecksum.pyStr c) =
        latestInfoSpec lam (some c) :=
  ⟨glvi_eq_latestInfoSpec_none hpv hnd,
   fun _ hc => glvi_eq_latestInfoSpec_some hpv hnd hc⟩

theorem c5_witness :
    get_layer_version_info lamDemo pagesDemo PyChecksum.pyNone =
      latestInfoSpec lamDemo none ∧
    get_layer_version_info lamDemo pagesDemo (PyChecksum.pyStr "c1") =
      latestInfoSpec lamDemo (some "c1") :=
  ⟨(c5_version_enumerator lamDemo pagesDemo
      (by unfold PagesValid; decide) (by decide)).1,
   (c5_version_enumerator lamDemo pagesDemo
      (by unfold PagesValid; decide) (by decide)).2 "c1" (by decide)⟩

/-- C6: the remote checksum resolver returns `(absent, absent)` without
raising when the object does not exist; returns the stored value and
`downloaded = false` when the object carries a (truthy) value under the
metadata key — the module itself only ever writes the nonempty digest
there; and downloads the body, hashes it, and returns the computed value
with `downloaded = true` when the metadata key is missing. -/
theorem c6_fetch_resolver (H : Bytes → String) (store : ObjectStore)
    (ov : Option String) (md : String) :
    (store.get (pyTruthyOpt ov) = none →
      fetch_s3_checksum H store ov md = (none, none)) ∧
    (∀ obj s, store.get (pyTruthyOpt ov) = some obj →
      List.lookup md obj.metadata = some s → s ≠ "" →
      fetch_s3_checksum H store ov md = (some s, some false)) ∧
    (∀ obj, store.get (pyTruthyOpt ov) = some obj →
      List.lookup md obj.metadata = none →
      fetch_s3_checksum H store ov md = (some (H obj.body), some true)) := by
  unfold fetch_s3_checksum
  refine ⟨fun h => by rw [h], fun obj s h1 h2 h3 => ?_, fun obj h1 h2 => ?_⟩
  · rw [h1]
    dsimp only
    rw [h2]
    dsimp only
    rw [if_neg h3]
  · rw [h1]
    dsimp only
    rw [h2]

theorem c6_witness :
    fetch_s3_checksum hashDemo storeDemoMissing none "sha256" = (none, none) ∧
    fetch_s3_checksum hashDemo storeDemoMeta none "sha256" =
      (some "c7", some false) ∧
    fetch_s3_checksum hashDemo storeDemoBare none "sha256" =
      (some (hashDemo [7]), some true) :=
  ⟨(c6_fetch_resolver hashDemo storeDemoMissing none "sha256").1 rfl,
   (c6_fetch_resolver hashDemo storeDemoMeta none "sha256").2.1 objDemoMeta "c7"
     rfl rfl (by decide),
   (c6_fetch_resolver hashDemo storeDemoBare none "sha256").2.2 objDemoBare
     rfl rfl⟩

/-- C7 counterexample: with two published versions (numbers 1 and 2) on
record, an `absent` reconciliation treats no version as current — the
version lookup it performs (checksum constraint `True`) yields nothing
and the result reports no version number, version ARN or layer ARN,
although the claim says the maximum-numbered version (2) is the current
one for comparison and reporting. -/
theorem c7_counterexample :
    get_layer_version_info lamDemo [lamDemo.versions] PyChecksum.pyTrue = none ∧
    (manage_lambda_layer hashDemo "L" lamDemo storeDemoMissing none none none
        none StateParam.absent none "sha256").map
        (fun o => (o.result.version, o.result.version_arn, o.result.arn)) =
      Except.ok (none, none, none) ∧
    lamDemo.versions ≠ [] :=
  ⟨glvi_pyTrue lamDemo [lamDemo.versions],
   by rw [manage_absent_eval]; rfl,
   by decide⟩

/-- C7 (amended): at most one published version is treated as current.
For `present` the current version is the maximum-numbered one among
those whose recorded checksum equals the local bundle's. For `absent`
the reconciler treats no version as current (its lookup passes the
boolean `True`, which matches no checksum). The maximum-numbered version
is what the lookup yields when no checksum constraint at all is given
(as in the separate layer-search module's reporting). -/
theorem c7_amended_current_version (lam : LayerState)
    (pages : List (List LayerVersion)) (hpv : PagesValid lam pages)
    (hnd : (lam.versions.map LayerVersion.version).Nodup) :
    (∀ c, c ≠ "" → ∀ w,
      get_layer_version_info lam pages (PyChecksum.pyStr c) = some w →
        w ∈ lam.versions ∧ w.codeSha256 = c ∧
        ∀ v ∈ lam.versions, v.codeSha256 = c → v.version ≤ w.version) ∧
    get_layer_version_info lam pages PyChecksum.pyTrue = none ∧
    (∀ w, get_layer_version_info lam pages PyChecksum.pyNone = some w →
      ∀ v ∈ lam.versions, v.version ≤ w.version) := by
  refine ⟨fun c hc w hw => ?_, glvi_pyTrue lam pages,
    fun w hw => glvi_max_none hpv hnd hw⟩
  obtain ⟨hm, hck⟩ := glvi_mem_checksum hc hw
  exact ⟨hm, hck, glvi_max hpv hnd hw⟩

theorem c7_witness :
    get_layer_version_info lamDemo pagesDemo PyChecksum.pyTrue = none ∧
    (∀ w, get_layer_version_info lamDemo pagesDemo PyChecksum.pyNone = some w →
      ∀ v ∈ lamDemo.versions, v.version ≤ w.version) :=
  ⟨(c7_amended_current_version lamDemo pagesDemo
      (by unfold PagesValid; decide) (by decide)).2.1,
   (c7_amended_current_version lamDemo pagesDemo
      (by unfold PagesValid; decide) (by decide)).2.2⟩

/-- C8: whenever the reconciler publishes a layer version, the publish
call carries the runtime-compatibility argument exactly when the
requested runtimes list (after `runtimes or []`) is non-empty; an empty
request omits the argument entirely rather than passing an empty
list. -/
theorem c8_publish_runtimes_argument (H : Bytes → String) (name : String)
    (lam : LayerState) (store : ObjectStore) (bu k ov : Option String)
    (path : Option Bytes) (state : StateParam) (rts : Option (List String))
    (md : String) {out : ManageOut} {pc : PublishCall}
    (hok : manage_lambda_layer H name lam store bu k ov path state rts md =
      Except.ok out)
    (hpc : out.publishCall = some pc) :
    pc.runtimesArg =
      (if (rts.getD []).isEmpty then none else some (rts.getD [])) ∧
    (pc.runtimesArg = none ↔ rts.getD [] = []) := by
  have hra : pc.runtimesArg =
      (if (rts.getD []).isEmpty then none else some (rts.getD [])) := by
    cases state with
    | absent =>
      rw [manage_absent_eval] at hok
      have h := Except.ok.inj hok
      rw [← h] at hpc
      simp at hpc
    | present =>
      cases path with
      | none =>
        have herr : manage_lambda_layer H name lam store bu k ov none
            StateParam.present rts md = Except.error Err.localIOError := rfl
        rw [herr] at hok
        cases hok
      | some b =>
        obtain ⟨hb, hsp⟩ :=
          manage_present_split H name lam store bu k ov b rts md out hok
        rcases hsp with ⟨w, hL, hm, hck, hrt, hup, rfl⟩ |
          ⟨w, hL, hm, hck, hrt, hup, rfl⟩ |
          ⟨w, obj, hL, hm, hck, hrtne, hup, hobj, rfl⟩ |
          ⟨w, hL, hm, hck, hrtne, hup, rfl⟩ |
          ⟨obj, hL, hup, hobj, rfl⟩ | ⟨hL, hup, rfl⟩
        · simp at hpc
        · simp at hpc
        · dsimp only at hpc
          rw [← Option.some.inj hpc]
        · dsimp only at hpc
          rw [← Option.some.inj hpc]
        · dsimp only at hpc
          rw [← Option.some.inj hpc]
        · dsimp only at hpc
          rw [← Option.some.inj hpc]
  refine ⟨hra, ?_⟩
  rw [hra]
  cases h : rts.getD [] with
  | nil => simp
  | cons a l => simp

/-- Helper: evaluation of the concrete first-deploy-with-runtimes
scenario used by several witnesses. -/
theorem manageDemoPublish_eval :
    manage_lambda_layer hashDemo "L" lamEmpty storeDemoMissing (some "bkt")
      (some "k") none (some bundleA) StateParam.present
      (some ["python3.8"]) "sha256" = Except.ok outDemoPublish := rfl

theorem c8_witness :
    ({ contentBucket := some "bkt", contentKey := some "k",
       contentVersion := none,
       runtimesArg := some ["python3.8"] } : PublishCall).runtimesArg =
      (if ((some ["python3.8"] : Option (List String)).getD []).isEmpty
       then none
       else some ((some ["python3.8"] : Option (List String)).getD [])) ∧
    (({ contentBucket := some "bkt", contentKey := some "k",
        contentVersion := none,
        runtimesArg := some ["python3.8"] } : PublishCall).runtimesArg = none ↔
      (some ["python3.8"] : Option (List String)).getD [] = []) :=
  c8_publish_runtimes_argument hashDemo "L" lamEmpty storeDemoMissing
    (some "bkt") (some "k") none (some bundleA) StateParam.present
    (some ["python3.8"]) "sha256" manageDemoPublish_eval rfl

/-- C4: in the `present` branch the bundle is uploaded exactly when the
remote object's resolved checksum is absent or differs from the local
checksum (the `needsUpload` condition of line 305): when it does not
hold the store is left untouched; when it holds the store takes the
uploaded object, `changed` is reported, and any subsequent publish call
points at the version token returned by the upload rather than the
caller-supplied object version. -/
theorem c4_upload_condition (H : Bytes → String) (name : String)
    (lam : LayerState) (store : ObjectStore) (bu k ov : Option String)
    (b : Bytes) (rts : Option (List String)) (md : String) {out : ManageOut}
    (hok : manage_lambda_layer H name lam store bu k ov (some b)
      StateParam.present rts md = Except.ok out) :
    (needsUpload (H b) (fetch_s3_checksum H store ov md).1 = false →
      out.store = store) ∧
    (needsUpload (H b) (fetch_s3_checksum H store ov md).1 = true →
      out.store = (upload_file H store b (some (H b)) md).1 ∧
      out.result.changed = true ∧
      ∀ pc, out.publishCall = some pc →
        pc.contentVersion =
          pyTruthyOpt (upload_file H store b (some (H b)) md).2) := by
  obtain ⟨hb, hsp⟩ := manage_present_split H name lam store bu k ov b rts md out hok
  constructor
  · intro hupf
    rcases hsp with ⟨w, hL, hm, hck, hrt, hup, rfl⟩ |
      ⟨w, hL, hm, hck, hrt, hup, rfl⟩ |
      ⟨w, obj, hL, hm, hck, hrtne, hup, hobj, rfl⟩ |
      ⟨w, hL, hm, hck, hrtne, hup, rfl⟩ |
      ⟨obj, hL, hup, hobj, rfl⟩ | ⟨hL, hup, rfl⟩
    · rfl
    · rw [hupf] at hup; cases hup
    · rfl
    · rw [hupf] at hup; cases hup
    · rfl
    · rw [hupf] at hup; cases hup
  · intro hupt
    rcases hsp with ⟨w, hL, hm, hck, hrt, hup, rfl⟩ |
      ⟨w, hL, hm, hck, hrt, hup, rfl⟩ |
      ⟨w, obj, hL, hm, hck, hrtne, hup, hobj, rfl⟩ |
      ⟨w, hL, hm, hck, hrtne, hup, rfl⟩ |
      ⟨obj, hL, hup, hobj, rfl⟩ | ⟨hL, hup, rfl⟩
    · rw [hupt] at hup; cases hup
    · exact ⟨rfl, rfl, fun pc hpc => by simp at hpc⟩
    · rw [hupt] at hup; cases hup
    · refine ⟨rfl, rfl, fun pc hpc => ?_⟩
      dsimp only at hpc
      rw [← Option.some.inj hpc]
    · rw [hupt] at hup; cases hup
    · refine ⟨rfl, rfl, fun pc hpc => ?_⟩
      dsimp only at hpc
      rw [← Option.some.inj hpc]

theorem c4_witness :
    outDemoPublish.store =
      (upload_file hashDemo storeDemoMissing bundleA
        (some (hashDemo bundleA)) "sha256").1 ∧
    outDemoPublish.result.changed = true ∧
    (∀ pc, outDemoPublish.publishCall = some pc →
      pc.contentVersion = pyTruthyOpt (upload_file hashDemo storeDemoMissing
        bundleA (some (hashDemo bundleA)) "sha256").2) :=
  (c4_upload_condition hashDemo "L" lamEmpty storeDemoMissing (some "bkt")
    (some "k") none bundleA (some ["python3.8"]) "sha256"
    manageDemoPublish_eval).2 rfl

/-- C3: in the `present` branch a new layer version is published exactly
when no version matching the local checksum was found, or the found
version's checksum differs from the local one (vacuous, since the lookup
filters by that checksum), or its runtime list differs from the
requested one; every publish reports `changed`; and when a matching
version exists but the runtimes differ while the remote object is up to
date, the re-publish points at the existing object location
(caller-supplied bucket, key and object version) without touching the
store. -/
theorem c3_publish_condition (H : Bytes → String) (name : String)
    (lam : LayerState) (store : ObjectStore) (bu k ov : Option String)
    (b : Bytes) (rts : Option (List String)) (md : String) {out : ManageOut}
    (hok : manage_lambda_layer H name lam store bu k ov (some b)
      StateParam.present rts md = Except.ok out) :
    (out.publishCall.isSome = true ↔
      (get_layer_version_info lam [lam.versions] (PyChecksum.pyStr (H b)) =
          none ∨
        ∃ w, get_layer_version_info lam [lam.versions]
            (PyChecksum.pyStr (H b)) = some w ∧
          (¬(w.codeSha256 = H b) ∨
           ¬(pyListOrNil w.compatibleRuntimes = rts.getD [])))) ∧
    (out.publishCall.isSome = true → out.result.changed = true) ∧
    (∀ w, get_layer_version_info lam [lam.versions]
        (PyChecksum.pyStr (H b)) = some w →
      ¬(pyListOrNil w.compatibleRuntimes = rts.getD []) →
      needsUpload (H b) (fetch_s3_checksum H store ov md).1 = false →
      out.store = store ∧
      out.publishCall = some
        { contentBucket := bu, contentKey := k,
          contentVersion := pyTruthyOpt ov,
          runtimesArg :=
            if (rts.getD []).isEmpty then none else some (rts.getD []) }) := by
  obtain ⟨hb, hsp⟩ := manage_present_split H name lam store bu k ov b rts md out hok
  rcases hsp with ⟨w, hL, hm, hck, hrt, hup, rfl⟩ |
    ⟨w, hL, hm, hck, hrt, hup, rfl⟩ |
    ⟨w, obj, hL, hm, hck, hrtne, hup, hobj, rfl⟩ |
    ⟨w, hL, hm, hck, hrtne, hup, rfl⟩ |
    ⟨obj, hL, hup, hobj, rfl⟩ | ⟨hL, hup, rfl⟩
  · refine ⟨?_, ?_, ?_⟩
    · constructor
      · intro hfalse
        exact absurd hfalse (by simp)
      · rintro (hnone | ⟨w', hw', hcase⟩)
        · rw [hL] at hnone
          cases hnone
        · rw [hL] at hw'
          cases Option.some.inj hw'
          rcases hcase with h | h
          · exact absurd hck h
          · exact absurd hrt h
    · intro hfalse
      exact absurd hfalse (by simp)
    · intro w' hw' hrtne' _
      rw [hL] at hw'
      cases Option.some.inj hw'
      exact absurd hrt hrtne'
  · refine ⟨?_, ?_, ?_⟩
    · constructor
      · intro hfalse
        exact absurd hfalse (by simp)
      · rintro (hnone | ⟨w', hw', hcase⟩)
        · rw [hL] at hnone
          cases hnone
        · rw [hL] at hw'
          cases Option.some.inj hw'
          rcases hcase with h | h
          · exact absurd hck h
          · exact absurd hrt h
    · intro hfalse
      exact absurd hfalse (by simp)
    · intro w' hw' hrtne' _
      rw [hL] at hw'
      cases Option.some.inj hw'
      exact absurd hrt hrtne'
  · refine ⟨?_, fun _ => rfl, ?_⟩
    · constructor
      · intro _
        exact Or.inr ⟨w, hL, Or.inr hrtne⟩
      · intro _
        rfl
    · intro w' hw' _ _
      rw [hL] at hw'
      cases Option.some.inj hw'
      exact ⟨rfl, rfl⟩
  · refine ⟨?_, fun _ => rfl, ?_⟩
    · constructor
      · intro _
        exact Or.inr ⟨w, hL, Or.inr hrtne⟩
      · intro _
        rfl
    · intro w' hw' hrtne' hupf
      rw [hupf] at hup
      cases hup
  · refine ⟨?_, fun _ => rfl, ?_⟩
    · constructor
      · intro _
        exact Or.inl hL
      · intro _
        rfl
    · intro w' hw' _ _
      rw [hL] at hw'
      cases hw'
  · refine ⟨?_, fun _ => rfl, ?_⟩
    · constructor
      · intro _
        exact Or.inl hL
      · intro _
        rfl
    · intro w' hw' _ _
      rw [hL] at hw'
      cases hw'

theorem c3_witness :
    (outDemoPublish.publishCall.isSome = true ↔
      (get_layer_version_info lamEmpty [lamEmpty.versions]
          (PyChecksum.pyStr (hashDemo bundleA)) = none ∨
        ∃ w, get_layer_version_info lamEmpty [lamEmpty.versions]
            (PyChecksum.pyStr (hashDemo bundleA)) = some w ∧
          (¬(w.codeSha256 = hashDemo bundleA) ∨
           ¬(pyListOrNil w.compatibleRuntimes =
              (some ["python3.8"] : Option (List String)).getD [])))) ∧
    (outDemoPublish.publishCall.isSome = true →
      outDemoPublish.result.changed = true) ∧
    (∀ w, get_layer_version_info lamEmpty [lamEmpty.versions]
        (PyChecksum.pyStr (hashDemo bundleA)) = some w →
      ¬(pyListOrNil w.compatibleRuntimes =
         (some ["python3.8"] : Option (List String)).getD []) →
      needsUpload (hashDemo bundleA)
        (fetch_s3_checksum hashDemo storeDemoMissing none "sha256").1 = false →
      outDemoPublish.store = storeDemoMissing ∧
      outDemoPublish.publishCall = some
        { contentBucket := some "bkt", contentKey := some "k",
          contentVersion := pyTruthyOpt none,
          runtimesArg :=
            if ((some ["python3.8"] : Option (List String)).getD []).isEmpty
            then none
            else some ((some ["python3.8"] : Option (List String)).getD []) }) :=
  c3_publish_condition hashDemo "L" lamEmpty storeDemoMissing (some "bkt")
    (some "k") none bundleA (some ["python3.8"]) "sha256" manageDemoPublish_eval

/-- Version 1 of the C2 scenario: bundle A published under the name. -/
def c2v1 (name : String) : LayerVersion :=
  { version := 1, layerArn := layerArnOf name,
    layerVersionArn := versionArnOf name 1,
    codeSha256 := hashDemo bundleA, compatibleRuntimes := none }

/-- Version 2 of the C2 scenario: bundle B published after overwriting
the object at the key. -/
def c2v2 (name : String) : LayerVersion :=
  { version := 2, layerArn := layerArnOf name,
    layerVersionArn := versionArnOf name 2,
    codeSha256 := hashDemo bundleB, compatibleRuntimes := none }

def c2Lam (name : String) : LayerState :=
  { versions := [c2v1 name, c2v2 name], nextVersion := 3 }

/-- The C2 store: the object at the key currently holds bundle B's bytes
(with its truthful checksum metadata). -/
def c2Store : ObjectStore :=
  { versioned := false,
    current := some { body := bundleB, metadata := [("sha256", hashDemo bundleB)] },
    history := [], nextTok := 0 }

/-- C2 counterexample: in the claimed scenario (bundle A as version 1,
bundle B as version 2 overwriting the object at the key), reconciling
`present` with bundle A again does NOT create a published version 3: the
layer state is unchanged (still two versions, next number still 3), no
publish call is made, and the result reports the existing version 1 —
while the bundle is indeed re-uploaded (the store's current object holds
A's bytes afterwards) and `changed = true` is reported. -/
theorem c2_counterexample :
    (manage_lambda_layer hashDemo "L" (c2Lam "L") c2Store (some "bkt")
        (some "k") none (some bundleA) StateParam.present none "sha256").map
      (fun o => (o.lam, o.result.changed, o.result.version, o.publishCall,
                 o.store.current)) =
      Except.ok (c2Lam "L", true, some 1, none,
        some { body := bundleA, metadata := [("sha256", hashDemo bundleA)] }) :=
  rfl

/-- C2 (amended): in the scenario where bundle A (checksum C1) was
published as version 1 under the name and bundle B (checksum C2) was
published as version 2 overwriting the object at the key, reconciling
`present` with bundle A again uploads the bundle afresh (the object at
the key holds B's bytes, so the checksums differ) and reports
`changed = true`, but publishes NO new version: the version lookup finds
version 1 (its recorded checksum is C1) and the publish condition is not
met, so the result reports the existing version 1 with checksum C1 and
the layer state is unchanged. -/
theorem c2_amended_reupload_no_new_version (name : String) (bu k : Option String) :
    manage_lambda_layer hashDemo name (c2Lam name) c2Store bu k none
        (some bundleA) StateParam.present none "sha256" =
      Except.ok
        { lam := c2Lam name,
          store := { versioned := false,
                     current := some { body := bundleA,
                                       metadata := [("sha256", hashDemo bundleA)] },
                     history := [], nextTok := 0 },
          result := { changed := true, arn := some (layerArnOf name),
                      version := some 1,
                      version_arn := some (versionArnOf name 1),
                      version_checksum := some (hashDemo bundleA),
                      runtimesR := some [],
                      bucketR := some bu, object_versionR := some none,
                      downloadedR := some (some false) },
          publishCall := none } :=
  rfl

/-- C1: idempotence of the reconciler. Starting from a well-formed layer
state (distinct version numbers below the plane's counter) and a store
whose checksum metadata is truthful (the invariant the module's own
uploads maintain), a successful `present` reconciliation followed by a
second one with the same name, bundle bytes and runtimes list (and no
pinned object version) makes the second call report `changed = false`
and the same version number and version ARN as the first. -/
theorem c1_idempotent (H : Bytes → String) (name : String) (lam : LayerState)
    (store : ObjectStore) (bu k : Option String) (b : Bytes)
    (rts : Option (List String)) (md : String) {out1 : ManageOut}
    (hWF : lam.WF) (hHon : HonestCurrent H md store)
    (h1 : manage_lambda_layer H name lam store bu k none (some b)
      StateParam.present rts md = Except.ok out1) :
    ∃ out2, manage_lambda_layer H name out1.lam out1.store bu k none (some b)
        StateParam.present rts md = Except.ok out2 ∧
      out2.result.changed = false ∧
      out2.result.version = out1.result.version ∧
      out2.result.version_arn = out1.result.version_arn := by
  obtain ⟨hb, hsp⟩ :=
    manage_present_split H name lam store bu k none b rts md out1 h1
  rcases hsp with ⟨w, hL, hm, hck, hrt, hup, rfl⟩ |
    ⟨w, hL, hm, hck, hrt, hup, rfl⟩ |
    ⟨w, obj, hL, hm, hck, hrtne, hup, hobj, rfl⟩ |
    ⟨w, hL, hm, hck, hrtne, hup, rfl⟩ |
    ⟨obj, hL, hup, hobj, rfl⟩ | ⟨hL, hup, rfl⟩
  · -- no-op: the second call repeats it verbatim
    have hF1 : (fetch_s3_checksum H store none md).1 = some (H b) :=
      ((needsUpload_false_iff _ _).mp hup).1
    exact ⟨_, manage_present_noop H name lam store bu k none b rts md w hL hck
      hrt hF1 hb, rfl, rfl, rfl⟩
  · -- upload only: the second call sees the fresh object and does nothing
    have hF1 : (fetch_s3_checksum H
        (upload_file H store b (some (H b)) md).1 none md).1 = some (H b) := by
      rw [fetch_after_upload H store b (H b) md hb]
    exact ⟨_, manage_present_noop H name lam
      (upload_file H store b (some (H b)) md).1 bu k none b rts md w hL hck
      hrt hF1 hb, rfl, rfl, rfl⟩
  · -- re-publish without upload: the new version has the local checksum
    have hF1 : (fetch_s3_checksum H store none md).1 = some (H b) :=
      ((needsUpload_false_iff _ _).mp hup).1
    obtain ⟨obj', hcur', hhash⟩ := fetch_honest hHon hF1
    have hcur : store.current = some obj := hobj
    have hobjeq : obj' = obj := by
      rw [hcur] at hcur'
      exact (Option.some.inj hcur').symm
    have hHb : H obj.body = H b := hobjeq ▸ hhash
    refine ⟨_, manage_present_noop H name
      { versions := lam.versions ++
          [{ version := lam.nextVersion, layerArn := layerArnOf name,
             layerVersionArn := versionArnOf name lam.nextVersion,
             codeSha256 := H obj.body,
             compatibleRuntimes :=
               if (rts.getD []).isEmpty then none
               else some (rts.getD []) }],
        nextVersion := lam.nextVersion + 1 } store bu k none b rts md
      { version := lam.nextVersion, layerArn := layerArnOf name,
        layerVersionArn := versionArnOf name lam.nextVersion,
        codeSha256 := H obj.body,
        compatibleRuntimes :=
          if (rts.getD []).isEmpty then none
          else some (rts.getD []) } ?_ ?_ ?_ hF1 hb, rfl, rfl, rfl⟩
    · exact glvi_append hWF rfl hHb
    · exact hHb
    · exact pyListOrNil_ifEmpty (rts.getD [])
  · -- re-publish with upload
    have hF1 : (fetch_s3_checksum H
        (upload_file H store b (some (H b)) md).1 none md).1 = some (H b) := by
      rw [fetch_after_upload H store b (H b) md hb]
    refine ⟨_, manage_present_noop H name
      { versions := lam.versions ++
          [{ version := lam.nextVersion, layerArn := layerArnOf name,
             layerVersionArn := versionArnOf name lam.nextVersion,
             codeSha256 := H b,
             compatibleRuntimes :=
               if (rts.getD []).isEmpty then none
               else some (rts.getD []) }],
        nextVersion := lam.nextVersion + 1 }
      (upload_file H store b (some (H b)) md).1 bu k none b rts md
      { version := lam.nextVersion, layerArn := layerArnOf name,
        layerVersionArn := versionArnOf name lam.nextVersion,
        codeSha256 := H b,
        compatibleRuntimes :=
          if (rts.getD []).isEmpty then none
          else some (rts.getD []) } ?_ ?_ ?_ hF1 hb, rfl, rfl, rfl⟩
    · exact glvi_append hWF rfl rfl
    · rfl
    · exact pyListOrNil_ifEmpty (rts.getD [])
  · -- first publish of the content, object already up to date
    have hF1 : (fetch_s3_checksum H store none md).1 = some (H b) :=
      ((needsUpload_false_iff _ _).mp hup).1
    obtain ⟨obj', hcur', hhash⟩ := fetch_honest hHon hF1
    have hcur : store.current = some obj := hobj
    have hobjeq : obj' = obj := by
      rw [hcur] at hcur'
      exact (Option.some.inj hcur').symm
    have hHb : H obj.body = H b := hobjeq ▸ hhash
    refine ⟨_, manage_present_noop H name
      { versions := lam.versions ++
          [{ version := lam.nextVersion, layerArn := layerArnOf name,
             layerVersionArn := versionArnOf name lam.nextVersion,
             codeSha256 := H obj.body,
             compatibleRuntimes :=
               if (rts.getD []).isEmpty then none
               else some (rts.getD []) }],
        nextVersion := lam.nextVersion + 1 } store bu k none b rts md
      { version := lam.nextVersion, layerArn := layerArnOf name,
        layerVersionArn := versionArnOf name lam.nextVersion,
        codeSha256 := H obj.body,
        compatibleRuntimes :=
          if (rts.getD []).isEmpty then none
          else some (rts.getD []) } ?_ ?_ ?_ hF1 hb, rfl, rfl, rfl⟩
    · exact glvi_append hWF rfl hHb
    · exact hHb
    · exact pyListOrNil_ifEmpty (rts.getD [])
  · -- first upload and publish of the content
    have hF1 : (fetch_s3_checksum H
        (upload_file H store b (some (H b)) md).1 none md).1 = some (H b) := by
      rw [fetch_after_upload H store b (H b) md hb]
    refine ⟨_, manage_present_noop H name
      { versions := lam.versions ++
          [{ version := lam.nextVersion, layerArn := layerArnOf name,
             layerVersionArn := versionArnOf name lam.nextVersion,
             codeSha256 := H b,
             compatibleRuntimes :=
               if (rts.getD []).isEmpty then none
               else some (rts.getD []) }],
        nextVersion := lam.nextVersion + 1 }
      (upload_file H store b (some (H b)) md).1 bu k none b rts md
      { version := lam.nextVersion, layerArn := layerArnOf name,
        layerVersionArn := versionArnOf name lam.nextVersion,
        codeSha256 := H b,
        compatibleRuntimes :=
          if (rts.getD []).isEmpty then none
          else some (rts.getD []) } ?_ ?_ ?_ hF1 hb, rfl, rfl, rfl⟩
    · exact glvi_append hWF rfl rfl
    · rfl
    · exact pyListOrNil_ifEmpty (rts.getD [])

/-- Output of the concrete first deploy of `bundleA` (no runtimes)
against an empty layer state and empty store. -/
def c1Out1 : ManageOut :=
  { lam := { versions := [{ version := 1, layerArn := layerArnOf "L",
                            layerVersionArn := versionArnOf "L" 1,
                            codeSha256 := hashDemo bundleA,
                            compatibleRuntimes := none }],
             nextVersion := 2 },
    store := storeDemoUploaded,
    result := { changed := true, arn := some (layerArnOf "L"),
                version := some 1, version_arn := some (versionArnOf "L" 1),
                version_checksum := some (hashDemo bundleA),
                bucketR := some (some "bkt"), object_versionR := some none,
                downloadedR := some none, stdoutSet := true },
    publishCall := some { contentBucket := some "bkt", contentKey := some "k",
                          contentVersion := none, runtimesArg := none } }

/-- Helper: evaluation of the concrete first deploy used by the C1
witness. -/
theorem manageDemoC1_eval :
    manage_lambda_layer hashDemo "L" lamEmpty storeDemoMissing (some "bkt")
      (some "k") none (some bundleA) StateParam.present none "sha256" =
      Except.ok c1Out1 := rfl

theorem c1_witness :
    ∃ out2, manage_lambda_layer hashDemo "L" c1Out1.lam c1Out1.store
        (some "bkt") (some "k") none (some bundleA) StateParam.present none
        "sha256" = Except.ok out2 ∧
      out2.result.changed = false ∧
      out2.result.version = c1Out1.result.version ∧
      out2.result.version_arn = c1Out1.result.version_arn :=
  c1_idempotent hashDemo "L" lamEmpty storeDemoMissing (some "bkt") (some "k")
    bundleA none "sha256" (by unfold LayerState.WF; decide)
    (by exact True.intro) manageDemoC1_eval
